import Mathlib

/-!
Shallow embedding of the loanSearchMcp repository core:
value objects (Money, Term, InterestRate, LoanType), entities (Bank, Loan),
the calculation service, the in-memory catalog lookup, the AI provider layer
(OpenAI/Claude adapters, factory recommendation, fallback cascade) and the
search use case.  JavaScript numbers are modelled as exact rationals; the
rounding operations are the source's Math.round based helpers.  Fallible
constructors and methods (which throw in TypeScript) return Except String.
-/

namespace LoanSearch

/-- JavaScript String.prototype.toUpperCase on the ASCII range, as a
character-wise map (kernel-reducible stand-in for String.toUpper). -/
def strToUpper (s : String) : String := ⟨s.data.map Char.toUpper⟩

/-- JavaScript String.prototype.trim, as character-list manipulation
(kernel-reducible stand-in for String.trim). -/
def strTrim (s : String) : String :=
  ⟨(((s.data.dropWhile Char.isWhitespace).reverse.dropWhile
      Char.isWhitespace).reverse)⟩

/-- JavaScript String.prototype.startsWith. -/
def strStartsWith (s p : String) : Bool := p.data.isPrefixOf s.data

/-- Is sub a contiguous run of l? -/
def listIsInfix (sub : List Char) : List Char → Bool
  | [] => sub.isEmpty
  | c :: t => sub.isPrefixOf (c :: t) || listIsInfix sub t

/-- JavaScript String.prototype.includes. -/
def strIncludes (s sub : String) : Bool := listIsInfix sub.data s.data

/-- JavaScript Math.round: rounds half toward positive infinity. -/
def jsRound (x : ℚ) : ℤ := ⌊x + 1/2⌋

/-- Source idiom Math.round(x * 100) / 100: round to 2 decimal places. -/
def round2 (x : ℚ) : ℚ := (jsRound (x * 100) : ℚ) / 100

/-- Monadic filter over Except, mirroring Array.prototype.filter with a
callback that may throw: the first exception aborts the traversal. -/
def filterE (p : α → Except String Bool) : List α → Except String (List α)
  | [] => .ok []
  | x :: xs =>
    match p x with
    | .error e => .error e
    | .ok b =>
      match filterE p xs with
      | .error e => .error e
      | .ok rest => .ok (if b then x :: rest else rest)

/-- Monadic map over Except, mirroring Array.prototype.map with a callback
that may throw. -/
def mapE (f : α → Except String β) : List α → Except String (List β)
  | [] => .ok []
  | x :: xs =>
    match f x with
    | .error e => .error e
    | .ok y =>
      match mapE f xs with
      | .error e => .error e
      | .ok ys => .ok (y :: ys)

instance [DecidableEq ε] [DecidableEq α] : DecidableEq (Except ε α) := fun x y =>
  match x, y with
  | .error a, .error b =>
    if h : a = b then .isTrue (by rw [h])
    else .isFalse (fun hh => by cases hh; exact h rfl)
  | .error a, .ok b => .isFalse (fun hh => by cases hh)
  | .ok a, .error b => .isFalse (fun hh => by cases hh)
  | .ok a, .ok b =>
    if h : a = b then .isTrue (by rw [h])
    else .isFalse (fun hh => by cases hh; exact h rfl)

/-- Money value object: amount plus 3-letter currency code
(src/domain/value-objects/money.ts). -/
structure Money where
  amount : ℚ
  currency : String
deriving DecidableEq, Repr

/-- Money constructor: rejects negative amounts and currency codes whose
length is not 3, rounds to 2 decimals and uppercases the currency. -/
def Money.create (amount : ℚ) (currency : String) : Except String Money :=
  if amount < 0 then .error "Amount cannot be negative"
  else if currency.length ≠ 3 then .error "Currency must be a valid 3-letter code"
  else .ok ⟨round2 amount, strToUpper currency⟩

/-- Money.fromNumber delegates to the constructor. -/
def Money.fromNumber (amount : ℚ) (currency : String) : Except String Money :=
  Money.create amount currency

/-- ensureSameCurrency throws on mismatched currencies. -/
def Money.ensureSameCurrency (m o : Money) : Except String Unit :=
  if m.currency ≠ o.currency then .error "Cannot operate on different currencies"
  else .ok ()

def Money.add (m o : Money) : Except String Money :=
  match m.ensureSameCurrency o with
  | .error e => .error e
  | .ok _ => Money.create (m.amount + o.amount) m.currency

def Money.subtract (m o : Money) : Except String Money :=
  match m.ensureSameCurrency o with
  | .error e => .error e
  | .ok _ => Money.create (m.amount - o.amount) m.currency

def Money.multiply (m : Money) (factor : ℚ) : Except String Money :=
  Money.create (m.amount * factor) m.currency

def Money.divide (m : Money) (divisor : ℚ) : Except String Money :=
  if divisor = 0 then .error "Cannot divide by zero"
  else Money.create (m.amount / divisor) m.currency

def Money.isGreaterThan (m o : Money) : Except String Bool :=
  match m.ensureSameCurrency o with
  | .error e => .error e
  | .ok _ => .ok (decide (m.amount > o.amount))

def Money.isLessThan (m o : Money) : Except String Bool :=
  match m.ensureSameCurrency o with
  | .error e => .error e
  | .ok _ => .ok (decide (m.amount < o.amount))

/-- The invariants every constructed Money satisfies: non-negative amount
already rounded to 2 decimals, uppercase 3-letter currency. -/
def Money.wellFormed (m : Money) : Prop :=
  0 ≤ m.amount ∧ round2 m.amount = m.amount ∧
    strToUpper m.currency = m.currency ∧ m.currency.length = 3

instance (m : Money) : Decidable m.wellFormed := by
  unfold Money.wellFormed; infer_instance

/-- Term value object: months stored after Math.round
(src/domain/value-objects/term.ts). -/
structure Term where
  months : ℤ
deriving DecidableEq, Repr

/-- Term constructor: rejects non-positive input and input exceeding
360 months, then rounds. -/
def Term.create (months : ℚ) : Except String Term :=
  if months ≤ 0 then .error "Term must be positive"
  else if months > 360 then .error "Term cannot exceed 360 months (30 years)"
  else .ok ⟨jsRound months⟩

def Term.fromMonths (months : ℚ) : Except String Term := Term.create months

/-- years getter: Math.round((months / 12) * 100) / 100. -/
def Term.years (t : Term) : ℚ := round2 ((t.months : ℚ) / 12)

def Term.isGreaterThan (t o : Term) : Bool := t.months > o.months

/-- InterestRate value object (src/domain/value-objects/interest-rate.ts). -/
structure InterestRate where
  rate : ℚ
deriving DecidableEq, Repr

/-- InterestRate constructor: rejects rates outside [0, 100], rounds to
2 decimals. -/
def InterestRate.create (rate : ℚ) : Except String InterestRate :=
  if rate < 0 then .error "Interest rate cannot be negative"
  else if rate > 100 then .error "Interest rate cannot exceed 100 percent"
  else .ok ⟨round2 rate⟩

/-- monthlyRate getter: rate / 100 / 12. -/
def InterestRate.monthlyRate (r : InterestRate) : ℚ := r.rate / 100 / 12

/-- LoanType value object over the closed set of valid type strings
(src/domain/value-objects/loan-type.ts). -/
structure LoanType where
  type : String
deriving DecidableEq, Repr

def LoanType.isValidType (s : String) : Bool :=
  s = "ihtiyac" || s = "konut" || s = "tasit"

def LoanType.fromString (s : String) : Except String LoanType :=
  if LoanType.isValidType s then .ok ⟨s⟩
  else .error "Invalid loan type"

def LoanType.displayName (t : LoanType) : String :=
  if t.type = "ihtiyac" then "Ihtiyac Kredisi"
  else if t.type = "konut" then "Konut Kredisi"
  else "Tasit Kredisi"

def LoanType.equals (t o : LoanType) : Bool := t.type = o.type

/-- Bank entity (src/domain/entities/bank.ts); creation timestamps are
outside the model. -/
structure Bank where
  id : String
  name : String
  isActive : Bool
deriving DecidableEq, Repr

def Bank.create (id name : String) : Except String Bank :=
  if (strTrim id).length = 0 then .error "Bank ID cannot be empty"
  else if (strTrim name).length = 0 then .error "Bank name cannot be empty"
  else .ok ⟨id, strTrim name, true⟩

/-- Loan entity (src/domain/entities/loan.ts); timestamps are outside the
model, the required-reference null checks are enforced by the Lean types. -/
structure Loan where
  id : String
  bank : Bank
  type : LoanType
  interestRate : InterestRate
  minAmount : Money
  maxAmount : Money
  maxTerm : Term
  eligibilityNote : String
  isActive : Bool
deriving DecidableEq, Repr

/-- Loan.create runs validateInputs: non-empty id, non-empty eligibility
note, and minAmount.isGreaterThan(maxAmount) must be false (that comparison
itself throws on mismatched currencies). -/
def Loan.create (id : String) (bank : Bank) (type : LoanType)
    (interestRate : InterestRate) (minAmount maxAmount : Money) (maxTerm : Term)
    (eligibilityNote : String) : Except String Loan :=
  if (strTrim id).length = 0 then .error "Loan ID cannot be empty"
  else if (strTrim eligibilityNote).length = 0 then .error "Eligibility note cannot be empty"
  else
    match minAmount.isGreaterThan maxAmount with
    | .error e => .error e
    | .ok gt =>
      if gt then .error "Minimum amount cannot be greater than maximum amount"
      else .ok ⟨id, bank, type, interestRate, minAmount, maxAmount, maxTerm,
        strTrim eligibilityNote, true⟩

/-- isEligibleForAmount with the source's short-circuit evaluation:
when the amount is below the minimum, the maximum is never compared. -/
def Loan.isEligibleForAmount (l : Loan) (amount : Money) : Except String Bool :=
  match amount.isLessThan l.minAmount with
  | .error e => .error e
  | .ok lt =>
    if lt then .ok false
    else
      match amount.isGreaterThan l.maxAmount with
      | .error e => .error e
      | .ok gt => .ok (!gt)

def Loan.isEligibleForTerm (l : Loan) (term : Term) : Bool :=
  !(term.isGreaterThan l.maxTerm)

/-- isEligible: isActive && isEligibleForAmount && isEligibleForTerm with
short-circuit evaluation. -/
def Loan.isEligible (l : Loan) (amount : Money) (term : Term) : Except String Bool :=
  if !l.isActive then .ok false
  else
    match l.isEligibleForAmount amount with
    | .error e => .error e
    | .ok a =>
      if !a then .ok false
      else .ok (l.isEligibleForTerm term)

/-- calculateMonthlyPayment: guards amount and term eligibility, then the
zero-rate division or the amortization formula wrapped by Money.fromNumber. -/
def Loan.calculateMonthlyPayment (l : Loan) (amount : Money) (term : Term) :
    Except String Money :=
  match l.isEligibleForAmount amount with
  | .error e => .error e
  | .ok okAmount =>
    if !okAmount then .error "Amount is not within loan limits"
    else if !(l.isEligibleForTerm term) then .error "Term exceeds maximum term"
    else
      let monthlyRate := l.interestRate.monthlyRate
      if monthlyRate = 0 then amount.divide (term.months : ℚ)
      else
        Money.fromNumber
          (amount.amount * (monthlyRate * (1 + monthlyRate) ^ term.months.toNat) /
            ((1 + monthlyRate) ^ term.months.toNat - 1))
          amount.currency

/-- calculateTotalPayment: monthly payment times the number of months. -/
def Loan.calculateTotalPayment (l : Loan) (amount : Money) (term : Term) :
    Except String Money :=
  match l.calculateMonthlyPayment amount term with
  | .error e => .error e
  | .ok mp => mp.multiply (term.months : ℚ)

/-- LoanCalculationService.calculateTotalInterest: total payment minus the
borrowed amount via Money.subtract
(src/domain/services/loan-calculation-service.ts). -/
def calculateTotalInterest (l : Loan) (amount : Money) (term : Term) :
    Except String Money :=
  match l.calculateTotalPayment amount term with
  | .error e => .error e
  | .ok tp => tp.subtract amount

/-- One row of the compareLoans output. -/
structure LoanComparison where
  loan : Loan
  monthlyPayment : Money
  totalPayment : Money
  totalInterest : Money
deriving DecidableEq, Repr

/-- The map step of compareLoans: the three payment figures for one loan. -/
def buildComparison (amount : Money) (term : Term) (l : Loan) :
    Except String LoanComparison :=
  match l.calculateMonthlyPayment amount term with
  | .error e => .error e
  | .ok mp =>
    match l.calculateTotalPayment amount term with
    | .error e => .error e
    | .ok tp =>
      match calculateTotalInterest l amount term with
      | .error e => .error e
      | .ok ti => .ok ⟨l, mp, tp, ti⟩

/-- The comparator of compareLoans sorts ascending by totalPayment.amount. -/
def cmpRel (a b : LoanComparison) : Prop :=
  a.totalPayment.amount ≤ b.totalPayment.amount

instance : DecidableRel cmpRel := fun a b =>
  inferInstanceAs (Decidable (a.totalPayment.amount ≤ b.totalPayment.amount))

instance : IsTotal LoanComparison cmpRel :=
  ⟨fun a b => le_total a.totalPayment.amount b.totalPayment.amount⟩

instance : IsTrans LoanComparison cmpRel :=
  ⟨fun _ _ _ hab hbc => le_trans hab hbc⟩

/-- The filter-then-map stage of compareLoans, before sorting. -/
def eligibleComparisons (loans : List Loan) (amount : Money) (term : Term) :
    Except String (List LoanComparison) :=
  match filterE (fun l => l.isEligible amount term) loans with
  | .error e => .error e
  | .ok elig => mapE (buildComparison amount term) elig

/-- LoanCalculationService.compareLoans: keep the eligible loans, compute
their figures, sort ascending by totalPayment (Array.prototype.sort is
stable, embedded as insertion sort). -/
def compareLoans (loans : List Loan) (amount : Money) (term : Term) :
    Except String (List LoanComparison) :=
  match eligibleComparisons loans amount term with
  | .error e => .error e
  | .ok comps => .ok (List.insertionSort cmpRel comps)

/-- InMemoryLoanRepository.findEligible: loans of the requested type that
are eligible for (amount, term); the type check short-circuits. -/
def findEligible (loans : List Loan) (type : LoanType) (amount : Money)
    (term : Term) : Except String (List Loan) :=
  filterE
    (fun l => if l.type.equals type then l.isEligible amount term else .ok false)
    loans

/-! ### AI provider layer (src/services) -/

/-- AIProviderType enum (src/types). -/
inductive AIProviderType
  | claude
  | openai
  | mock
deriving DecidableEq, Repr

/-- SupportedLanguage enum (src/types). -/
inductive SupportedLanguage
  | turkish
  | english
  | arabic
deriving DecidableEq, Repr

/-- CreditType enum (src/types). -/
inductive CreditType
  | konut
  | tasit
  | ihtiyac
deriving DecidableEq, Repr

/-- extractedInfo block of a provider response. -/
structure ExtractedInfo where
  detectedPhrases : List String
  amountPhrase : Option String
  termPhrase : Option String
  creditTypePhrase : Option String
deriving DecidableEq, Repr

/-- AIProviderResponse (src/types): the structured parse result every
adapter returns; token usage is outside the model. -/
structure AIProviderResponse where
  creditType : Option CreditType
  amount : Option ℚ
  term : Option ℚ
  confidence : ℚ
  reasoning : String
  extractedInfo : ExtractedInfo
  uncertainties : List String
  isLoanQuery : Bool
  provider : AIProviderType
deriving DecidableEq, Repr

/-- AIProviderError: the typed error an adapter derives from a failed
backend call. -/
structure AIProviderError where
  errType : String
  userMessage : String
  suggestion : String
deriving DecidableEq, Repr

/-- AIProviderConfig (src/types); timeout and retry budget are outside the
model. -/
structure AIProviderConfig where
  type : AIProviderType
  apiKey : String
  model : String
  maxTokens : ℕ
  temperature : ℚ
deriving DecidableEq, Repr

/-- AIProviderDiagnostics (src/types). -/
structure AIProviderDiagnostics where
  provider : AIProviderType
  apiKeyStatus : String
  connectionStatus : String
  suggestions : List String
  modelSupported : Bool
deriving DecidableEq, Repr

/-- The degraded response an adapter returns when its backend call fails:
confidence 0, not a loan query, the error kind recorded in uncertainties. -/
def failedProviderResponse (provider : AIProviderType) (errorInfo : AIProviderError) :
    AIProviderResponse :=
  { creditType := none
    amount := none
    term := none
    confidence := 0
    reasoning := errorInfo.userMessage
    extractedInfo := ⟨[], none, none, none⟩
    uncertainties := [errorInfo.errType]
    isLoanQuery := false
    provider := provider }

/-- The external chat-completion call is an oracle: it either yields a
decoded structured response or the typed error the adapter's error analysis
produces from the thrown backend exception. -/
def NetworkOutcome := Except AIProviderError AIProviderResponse

/-- OpenAIProvider.parseQuery: with no API key the client initialization
fails before any request and the catch block returns the degraded response;
otherwise the network call happens.  The Bool records whether the network
was used. -/
def openAIParseQuery (cfg : AIProviderConfig) (network : NetworkOutcome) :
    AIProviderResponse × Bool :=
  if cfg.apiKey = "" then
    (failedProviderResponse .openai
      ⟨"UNKNOWN_ERROR", "OpenAI API unknown error: OpenAI API is not available",
        "Check the logs and contact support"⟩, false)
  else
    match network with
    | .ok r => (r, true)
    | .error e => (failedProviderResponse .openai e, true)

/-- ClaudeProvider.parseQuery, same structure with the Claude client. -/
def claudeParseQuery (cfg : AIProviderConfig) (network : NetworkOutcome) :
    AIProviderResponse × Bool :=
  if cfg.apiKey = "" then
    (failedProviderResponse .claude
      ⟨"UNKNOWN_ERROR", "Claude API unknown error: Claude API is not available",
        "Check the logs and contact support"⟩, false)
  else
    match network with
    | .ok r => (r, true)
    | .error e => (failedProviderResponse .claude e, true)

/-- testConnectivity: a canned parse call counts as success when it returns
a loan query with positive confidence. -/
def testConnectivity (parse : AIProviderConfig → NetworkOutcome → AIProviderResponse × Bool)
    (cfg : AIProviderConfig) (network : NetworkOutcome) : Bool × Bool :=
  let (r, used) := parse cfg network
  (r.isLoanQuery && decide (r.confidence > 0), used)

/-- Shared getDiagnostics shape: api key status from presence and the
structural format check, model support, then the connectivity test runs
unconditionally. -/
def getDiagnostics (provider : AIProviderType) (formatOk : String → Bool)
    (supportedModels : List String) (missingMsg invalidMsg failMsg : String)
    (parse : AIProviderConfig → NetworkOutcome → AIProviderResponse × Bool)
    (cfg : AIProviderConfig) (network : NetworkOutcome) :
    AIProviderDiagnostics × Bool :=
  let apiKeyStatus :=
    if cfg.apiKey = "" then "missing"
    else if !(formatOk cfg.apiKey) then "invalid_format"
    else "configured"
  let keySuggestions :=
    if cfg.apiKey = "" then [missingMsg]
    else if !(formatOk cfg.apiKey) then [invalidMsg]
    else []
  let modelSupported := supportedModels.any (fun m => strIncludes cfg.model m)
  let modelSuggestions := if modelSupported then [] else ["Model may be unsupported"]
  let (connOk, used) := testConnectivity parse cfg network
  ({ provider := provider
     apiKeyStatus := apiKeyStatus
     connectionStatus := if connOk then "success" else "failed"
     suggestions := keySuggestions ++ modelSuggestions ++ (if connOk then [] else [failMsg])
     modelSupported := modelSupported }, used)

/-- OpenAIProvider.getDiagnostics (src/services/ai-providers/openai-provider.ts):
format check requires the sk- key structure. -/
def openAIGetDiagnostics (cfg : AIProviderConfig) (network : NetworkOutcome) :
    AIProviderDiagnostics × Bool :=
  getDiagnostics .openai (fun k => strStartsWith k "sk-")
    ["gpt-4", "gpt-4o", "gpt-3.5-turbo", "gpt-4-turbo"]
    "OPENAI_API_KEY environment variable missing"
    "API key format invalid, must start with sk-"
    "OpenAI API connection failed, check API key or permissions"
    openAIParseQuery cfg network

/-- ClaudeProvider.getDiagnostics (src/services/ai-providers/claude-provider.ts):
format check requires the sk-ant- key structure. -/
def claudeGetDiagnostics (cfg : AIProviderConfig) (network : NetworkOutcome) :
    AIProviderDiagnostics × Bool :=
  getDiagnostics .claude (fun k => strStartsWith k "sk-ant-")
    ["claude-3-haiku", "claude-3-sonnet", "claude-3-opus", "claude-3.5-sonnet"]
    "ANTHROPIC_API_KEY environment variable missing"
    "API key format invalid, must start with sk-ant-"
    "Claude API connection failed, check billing or permissions"
    claudeParseQuery cfg network

/-- AIProviderFactory.getRecommendedProvider (provider-factory.ts):
the configured primary/fallback pair by language. -/
structure ProviderRecommendation where
  primary : AIProviderType
  fallback : AIProviderType
deriving DecidableEq, Repr

def getRecommendedProvider (language : SupportedLanguage) : ProviderRecommendation :=
  if language = .turkish then ⟨.openai, .claude⟩ else ⟨.claude, .openai⟩

/-! ### Natural language orchestration facade (src/services/natural-language.ts) -/

/-- claudeResponse block of a ParsedQuery. -/
structure ClaudeResponseInfo where
  reasoning : Option String
  uncertainties : Option (List String)
deriving DecidableEq, Repr

/-- ParsedQuery (src/types): the facade's result format. -/
structure ParsedQuery where
  amount : Option ℚ
  term : Option ℚ
  creditType : Option CreditType
  isHousingLoanQuery : Bool
  confidence : ℚ
  rawText : String
  extractedInfo : Option ExtractedInfo
  claudeResponse : Option ClaudeResponseInfo
deriving DecidableEq, Repr

/-- JavaScript x || undefined on an optional number: 0 is falsy. -/
def jsOrUndefQ (a : Option ℚ) : Option ℚ :=
  match a with
  | some q => if q = 0 then none else some q
  | none => none

/-- JavaScript x || undefined on an optional string: the empty string is
falsy. -/
def jsOrUndefStr (a : Option String) : Option String :=
  match a with
  | some s => if s = "" then none else some s
  | none => none

/-- NaturalLanguageService.convertToParseQuery. -/
def convertToParseQuery (result : AIProviderResponse) (originalText : String) :
    ParsedQuery :=
  { amount := jsOrUndefQ result.amount
    term := jsOrUndefQ result.term
    creditType := result.creditType
    isHousingLoanQuery := result.isLoanQuery
    confidence := result.confidence
    rawText := originalText
    extractedInfo := some
      { detectedPhrases := result.extractedInfo.detectedPhrases
        amountPhrase := jsOrUndefStr result.extractedInfo.amountPhrase
        termPhrase := jsOrUndefStr result.extractedInfo.termPhrase
        creditTypePhrase := jsOrUndefStr result.extractedInfo.creditTypePhrase }
    claudeResponse := some ⟨some result.reasoning, some result.uncertainties⟩ }

/-- NaturalLanguageService.createFailedResponse: the terminal
all-providers-failed answer. -/
def createFailedResponse (text : String) : ParsedQuery :=
  { amount := none
    term := none
    creditType := none
    isHousingLoanQuery := false
    confidence := 0
    rawText := text
    extractedInfo := none
    claudeResponse := some
      ⟨some "Tum AI providers basarisiz oldu", some ["ALL_PROVIDERS_FAILED"]⟩ }

/-- NaturalLanguageService.parseQuery with tryFallbackProvider: the active
provider is attempted; on a thrown error exactly one alternate (the other
member of the recommended pair when the active one is a member) is
attempted; a second failure yields createFailedResponse.  Each adapter
attempt is an oracle indexed by provider type; the returned list records
the backends attempted, in order. -/
def fallbackChoice (active : AIProviderType) (language : SupportedLanguage) :
    AIProviderType :=
  if active = (getRecommendedProvider language).primary
  then (getRecommendedProvider language).fallback
  else (getRecommendedProvider language).primary

def nlParseQuery (active : AIProviderType) (language : SupportedLanguage)
    (attempt : AIProviderType → Except String AIProviderResponse) (text : String) :
    ParsedQuery × List AIProviderType :=
  match attempt active with
  | .ok r => (convertToParseQuery r text, [active])
  | .error _ =>
    match attempt (fallbackChoice active language) with
    | .ok r => (convertToParseQuery r text, [active, fallbackChoice active language])
    | .error _ => (createFailedResponse text, [active, fallbackChoice active language])

/-! ### Search use case (src/application/use-cases/search-loans-use-case.ts) -/

/-- QueryParseResult DTO (src/application/dtos/query-parse-result.ts). -/
structure QueryParseResult where
  success : Bool
  type : Option String
  amount : Option ℚ
  termMonths : Option ℚ
  currency : Option String
  error : Option String
deriving DecidableEq, Repr

/-- LoanSearchRequest DTO. -/
structure LoanSearchRequest where
  query : String
  type : Option String
  amount : Option ℚ
  termMonths : Option ℚ
  currency : Option String
deriving DecidableEq, Repr

/-- ParsedLoanSearchRequest DTO. -/
structure ParsedLoanSearchRequest where
  type : String
  amount : ℚ
  termMonths : ℚ
  currency : String
deriving DecidableEq, Repr

/-- LoanDto. -/
structure LoanDto where
  id : String
  bankName : String
  type : String
  typeDisplayName : String
  interestRate : ℚ
  monthlyPayment : ℚ
  totalPayment : ℚ
  totalInterest : ℚ
  minAmount : ℚ
  maxAmount : ℚ
  maxTermMonths : ℤ
  eligibilityNote : String
  currency : String
deriving DecidableEq, Repr

/-- LoanSearchResponse DTO. -/
structure LoanSearchResponse where
  query : String
  parsedParams : ParsedLoanSearchRequest
  loans : List LoanDto
  totalFound : ℕ
  success : Bool
  error : Option String
deriving DecidableEq, Repr

/-- createEmptyParams. -/
def createEmptyParams : ParsedLoanSearchRequest :=
  ⟨"", 0, 0, "TRY"⟩

/-- JavaScript parseResult.currency || TRY: the empty string is falsy. -/
def currencyOrTRY (c : Option String) : String :=
  match c with
  | some s => if s = "" then "TRY" else s
  | none => "TRY"

/-- toLoanDto. -/
def toLoanDto (comparison : LoanComparison) (amount : Money) : LoanDto :=
  { id := comparison.loan.id
    bankName := comparison.loan.bank.name
    type := comparison.loan.type.type
    typeDisplayName := comparison.loan.type.displayName
    interestRate := comparison.loan.interestRate.rate
    monthlyPayment := comparison.monthlyPayment.amount
    totalPayment := comparison.totalPayment.amount
    totalInterest := comparison.totalInterest.amount
    minAmount := comparison.loan.minAmount.amount
    maxAmount := comparison.loan.maxAmount.amount
    maxTermMonths := comparison.loan.maxTerm.months
    eligibilityNote := comparison.loan.eligibilityNote
    currency := amount.currency }

/-- The try block of SearchLoansUseCase.execute after a successful parse:
value object construction, catalog lookup, ranking, DTO assembly.  The
source reads the parsed fields with non-null assertions; an absent field
surfaces as the failing value object construction (the NaN propagation of
JavaScript float arithmetic on undefined is outside the model). -/
def executeCore (catalog : List Loan) (request : LoanSearchRequest)
    (parseResult : QueryParseResult) : Except String LoanSearchResponse :=
  match LoanType.fromString (parseResult.type.getD "undefined") with
  | .error e => .error e
  | .ok loanType =>
    match Money.fromNumber (parseResult.amount.getD 0)
        (currencyOrTRY parseResult.currency) with
    | .error e => .error e
    | .ok amount =>
      match Term.fromMonths (parseResult.termMonths.getD 0) with
      | .error e => .error e
      | .ok term =>
        match findEligible catalog loanType amount term with
        | .error e => .error e
        | .ok loans =>
          match compareLoans loans amount term with
          | .error e => .error e
          | .ok comparisons =>
            let loanDtos := comparisons.map (fun c => toLoanDto c amount)
            .ok
              { query := request.query
                parsedParams :=
                  { type := parseResult.type.getD "undefined"
                    amount := parseResult.amount.getD 0
                    termMonths := parseResult.termMonths.getD 0
                    currency := currencyOrTRY parseResult.currency }
                loans := loanDtos
                totalFound := loanDtos.length
                success := true
                error := none }

/-- SearchLoansUseCase.execute: a failed parse or any thrown domain error is
converted to a structured failure response; the function is total, so the
call never throws.  The parse outcome of the injected AI service is a
parameter. -/
def executeSearch (catalog : List Loan) (request : LoanSearchRequest)
    (parseResult : QueryParseResult) : LoanSearchResponse :=
  if !parseResult.success then
    { query := request.query
      parsedParams := createEmptyParams
      loans := []
      totalFound := 0
      success := false
      error := some (parseResult.error.getD "Query could not be parsed") }
  else
    match executeCore catalog request parseResult with
    | .ok response => response
    | .error msg =>
      { query := request.query
        parsedParams := createEmptyParams
        loans := []
        totalFound := 0
        success := false
        error := some msg }

/-! ### Infrastructure lemmas -/

theorem jsRound_intCast (k : ℤ) : jsRound (k : ℚ) = k := by
  unfold jsRound
  rw [Int.floor_eq_iff]
  constructor <;> linarith

theorem round2_nonneg {x : ℚ} (h : 0 ≤ x) : 0 ≤ round2 x := by
  unfold round2 jsRound
  have h1 : (0 : ℤ) ≤ ⌊x * 100 + 1/2⌋ := by
    rw [Int.floor_nonneg]
    nlinarith
  positivity

theorem round2_div_hundred (k : ℤ) : round2 ((k : ℚ) / 100) = (k : ℚ) / 100 := by
  unfold round2
  have h : (k : ℚ) / 100 * 100 = (k : ℚ) := by field_simp
  rw [h, jsRound_intCast]

theorem round2_round2 (x : ℚ) : round2 (round2 x) = round2 x := by
  unfold round2
  have h : (jsRound (x * 100) : ℚ) / 100 * 100 = (jsRound (x * 100) : ℚ) := by
    field_simp
  rw [h, jsRound_intCast]

theorem Money.create_eq_ok {a : ℚ} {c : String} {m : Money} :
    Money.create a c = .ok m ↔ 0 ≤ a ∧ c.length = 3 ∧ m = ⟨round2 a, strToUpper c⟩ := by
  unfold Money.create
  split_ifs with h1 h2
  · constructor
    · intro h
      cases h
    · rintro ⟨ha, -, -⟩
      exact absurd h1 (not_lt.mpr ha)
  · constructor
    · intro h
      cases h
    · rintro ⟨-, hc, -⟩
      exact h2 hc
  · constructor
    · intro h
      simp only [Except.ok.injEq] at h
      exact ⟨not_lt.mp h1, not_ne_iff.mp h2, h.symm⟩
    · rintro ⟨-, -, rfl⟩
      rfl

/-- The part of the Money invariant that every operation preserves on its
amount: non-negative and already rounded to 2 decimals. -/
def Money.valid (m : Money) : Prop :=
  0 ≤ m.amount ∧ round2 m.amount = m.amount

theorem Money.create_ok_valid {a : ℚ} {c : String} {m : Money}
    (h : Money.create a c = .ok m) : m.valid := by
  rw [Money.create_eq_ok] at h
  obtain ⟨ha, -, rfl⟩ := h
  exact ⟨round2_nonneg ha, round2_round2 a⟩

theorem filterE_sound {p : α → Except String Bool} :
    ∀ {l r : List α}, filterE p l = .ok r → ∀ x ∈ r, x ∈ l ∧ p x = .ok true
  | [], r, h => by
    simp only [filterE] at h
    cases h
    intro x hx
    cases hx
  | a :: as, r, h => by
    simp only [filterE] at h
    cases hpa : p a with
    | error e => rw [hpa] at h; cases h
    | ok b =>
      rw [hpa] at h
      cases hrest : filterE p as with
      | error e => rw [hrest] at h; cases h
      | ok rest =>
        rw [hrest] at h
        cases h
        intro x hx
        by_cases hb : b
        · subst hb
          rw [if_pos rfl] at hx
          rcases List.mem_cons.mp hx with rfl | hx
          · exact ⟨List.mem_cons_self _ _, hpa⟩
          · obtain ⟨h1, h2⟩ := filterE_sound hrest x hx
            exact ⟨List.mem_cons_of_mem _ h1, h2⟩
        · rw [Bool.not_eq_true] at hb
          subst hb
          rw [if_neg (by simp)] at hx
          obtain ⟨h1, h2⟩ := filterE_sound hrest x hx
          exact ⟨List.mem_cons_of_mem _ h1, h2⟩

theorem filterE_complete {p : α → Except String Bool} :
    ∀ {l r : List α}, filterE p l = .ok r → ∀ x ∈ l, p x = .ok true → x ∈ r
  | [], r, h => by
    intro x hx
    cases hx
  | a :: as, r, h => by
    simp only [filterE] at h
    cases hpa : p a with
    | error e => rw [hpa] at h; cases h
    | ok b =>
      rw [hpa] at h
      cases hrest : filterE p as with
      | error e => rw [hrest] at h; cases h
      | ok rest =>
        rw [hrest] at h
        cases h
        intro x hx hpx
        rcases List.mem_cons.mp hx with rfl | hx
        · rw [hpa] at hpx
          cases hpx
          rw [if_pos rfl]
          exact List.mem_cons_self _ _
        · have hmem := filterE_complete hrest x hx hpx
          by_cases hb : b
          · subst hb
            rw [if_pos rfl]
            exact List.mem_cons_of_mem _ hmem
          · rw [Bool.not_eq_true] at hb
            subst hb
            rw [if_neg (by simp)]
            exact hmem

theorem mapE_sound {f : α → Except String β} :
    ∀ {l : List α} {r : List β}, mapE f l = .ok r → ∀ y ∈ r, ∃ x ∈ l, f x = .ok y
  | [], r, h => by
    simp only [mapE] at h
    cases h
    intro y hy
    cases hy
  | a :: as, r, h => by
    simp only [mapE] at h
    cases hfa : f a with
    | error e => rw [hfa] at h; cases h
    | ok b =>
      rw [hfa] at h
      cases hrest : mapE f as with
      | error e => rw [hrest] at h; cases h
      | ok rest =>
        rw [hrest] at h
        cases h
        intro y hy
        rcases List.mem_cons.mp hy with rfl | hy
        · exact ⟨a, List.mem_cons_self _ _, hfa⟩
        · obtain ⟨x, hx1, hx2⟩ := mapE_sound hrest y hy
          exact ⟨x, List.mem_cons_of_mem _ hx1, hx2⟩

theorem mapE_complete {f : α → Except String β} :
    ∀ {l : List α} {r : List β}, mapE f l = .ok r → ∀ x ∈ l, ∃ y ∈ r, f x = .ok y
  | [], r, h => by
    intro x hx
    cases hx
  | a :: as, r, h => by
    simp only [mapE] at h
    cases hfa : f a with
    | error e => rw [hfa] at h; cases h
    | ok b =>
      rw [hfa] at h
      cases hrest : mapE f as with
      | error e => rw [hrest] at h; cases h
      | ok rest =>
        rw [hrest] at h
        cases h
        intro x hx
        rcases List.mem_cons.mp hx with rfl | hx
        · exact ⟨b, List.mem_cons_self _ _, hfa⟩
        · obtain ⟨y, hy1, hy2⟩ := mapE_complete hrest x hx
          exact ⟨y, List.mem_cons_of_mem _ hy1, hy2⟩

theorem filter_orderedInsert_key (k : ℚ) (a : LoanComparison)
    (l : List LoanComparison) :
    (l.orderedInsert cmpRel a).filter
        (fun c => decide (c.totalPayment.amount = k)) =
      if a.totalPayment.amount = k then
        a :: l.filter (fun c => decide (c.totalPayment.amount = k))
      else l.filter (fun c => decide (c.totalPayment.amount = k)) := by
  induction l with
  | nil =>
    by_cases ha : a.totalPayment.amount = k <;>
      simp [List.orderedInsert, List.filter_cons, ha]
  | cons b bs ih =>
    rw [List.orderedInsert]
    by_cases hab : cmpRel a b
    · rw [if_pos hab]
      by_cases ha : a.totalPayment.amount = k <;>
        simp [List.filter_cons, ha]
    · rw [if_neg hab]
      by_cases ha : a.totalPayment.amount = k
      · have hb : ¬ b.totalPayment.amount = k := by
          intro hbk
          exact hab (le_of_eq (ha.trans hbk.symm))
        simp [List.filter_cons, hb, ih, ha]
      · by_cases hb : b.totalPayment.amount = k <;>
          simp [List.filter_cons, hb, ih, ha]

theorem filter_insertionSort_key (k : ℚ) (l : List LoanComparison) :
    (List.insertionSort cmpRel l).filter
        (fun c => decide (c.totalPayment.amount = k)) =
      l.filter (fun c => decide (c.totalPayment.amount = k)) := by
  induction l with
  | nil => rfl
  | cons a l ih =>
    rw [List.insertionSort, filter_orderedInsert_key]
    by_cases ha : a.totalPayment.amount = k <;>
      simp [List.filter_cons, ha, ih]

/-- Did the fallible computation succeed (no exception thrown)? -/
def exceptOk : Except String α → Bool
  | .ok _ => true
  | .error _ => false

theorem exceptOk_true {e : Except String α} :
    exceptOk e = true ↔ ∃ a, e = .ok a := by
  cases e <;> simp [exceptOk]

/-- Demo bank used by the concrete instances below. -/
def demoBank : Bank := ⟨"garanti-bbva", "Garanti BBVA", true⟩

theorem Money.subtract_same_neg {x y : Money} (hc : x.currency = y.currency)
    (h : x.amount < y.amount) :
    x.subtract y = .error "Amount cannot be negative" := by
  unfold Money.subtract Money.ensureSameCurrency
  rw [if_neg (by simp [hc])]
  unfold Money.create
  rw [if_pos (by linarith)]

theorem Money.op_mismatch {x y : Money} (hc : x.currency ≠ y.currency) :
    x.add y = .error "Cannot operate on different currencies" ∧
      x.subtract y = .error "Cannot operate on different currencies" := by
  unfold Money.add Money.subtract Money.ensureSameCurrency
  rw [if_pos hc]
  exact ⟨rfl, rfl⟩

/-- C9 (amended): construction is the validation boundary.  Money accepts
exactly non-negative amounts with 3-letter currency codes; Term over integer
month counts accepts exactly 0 < m ≤ 360 and derives years = round(m/12, 2);
InterestRate accepts exactly [0, 100]; Loan, once its id and eligibility
note are non-blank and the bounds share a currency, accepts exactly
minAmount ≤ maxAmount.  (The original claim's "otherwise construction
succeeds" fails for Loan: a blank id or note is also rejected.) -/
theorem c9_construction_validation :
    (∀ (a : ℚ) (c : String),
      exceptOk (Money.create a c) = true ↔ 0 ≤ a ∧ c.length = 3)
    ∧ (∀ m : ℤ,
        (exceptOk (Term.create (m : ℚ)) = true ↔ 0 < m ∧ m ≤ 360)
        ∧ ∀ t, Term.create (m : ℚ) = .ok t → t.years = round2 ((m : ℚ) / 12))
    ∧ (∀ r : ℚ, exceptOk (InterestRate.create r) = true ↔ 0 ≤ r ∧ r ≤ 100)
    ∧ (∀ (id : String) (bank : Bank) (ty : LoanType) (rate : InterestRate)
        (minA maxA : Money) (maxT : Term) (note : String),
        (strTrim id).length ≠ 0 → (strTrim note).length ≠ 0 →
        minA.currency = maxA.currency →
        (exceptOk (Loan.create id bank ty rate minA maxA maxT note) = true ↔
          minA.amount ≤ maxA.amount)) := by
  refine ⟨?_, ?_, ?_, ?_⟩
  · intro a c
    unfold Money.create
    split_ifs with h1 h2
    · simp [exceptOk, not_le.mpr h1]
    · simp [exceptOk, h2]
    · simp [exceptOk, not_lt.mp h1, not_ne_iff.mp h2]
  · intro m
    constructor
    · unfold Term.create
      split_ifs with h1 h2
      · have : m ≤ 0 := by exact_mod_cast h1
        simp [exceptOk, not_lt.mpr this]
      · have : (360 : ℤ) < m := by exact_mod_cast h2
        simp [exceptOk, not_le.mpr this]
      · have hm1 : 0 < m := by
          have := not_le.mp h1
          exact_mod_cast this
        have hm2 : m ≤ 360 := by
          have := not_lt.mp h2
          exact_mod_cast this
        simp [exceptOk, hm1, hm2]
    · intro t ht
      unfold Term.create at ht
      split_ifs at ht
      simp only [Except.ok.injEq] at ht
      subst ht
      simp [Term.years, jsRound_intCast]
  · intro r
    unfold InterestRate.create
    split_ifs with h1 h2
    · simp [exceptOk, not_le.mpr h1]
    · simp [exceptOk, not_le.mpr h2]
    · simp [exceptOk, not_lt.mp h1, not_lt.mp h2]
  · intro id bank ty rate minA maxA maxT note hid hnote hcur
    unfold Loan.create Money.isGreaterThan Money.ensureSameCurrency
    rw [if_neg hid, if_neg hnote, if_neg (by simp [hcur])]
    by_cases hgt : maxA.amount < minA.amount
    · rw [show (decide (minA.amount > maxA.amount)) = true by simpa using hgt]
      simp [exceptOk, not_le.mpr hgt]
    · rw [show (decide (minA.amount > maxA.amount)) = false by simpa using hgt]
      simp [exceptOk, not_lt.mp hgt]

/-- C9 counterexample: the claim says Loan construction fails when
minAmount > maxAmount and otherwise succeeds; here minAmount ≤ maxAmount
(isGreaterThan is false) yet construction fails because the id is empty. -/
theorem c9_counterexample :
    Money.isGreaterThan ⟨100, "TRY"⟩ ⟨200, "TRY"⟩ = .ok false
    ∧ Loan.create "" demoBank ⟨"konut"⟩ ⟨0⟩ ⟨100, "TRY"⟩ ⟨200, "TRY"⟩ ⟨12⟩
        "note" = .error "Loan ID cannot be empty" := by
  constructor
  · norm_num +decide [Money.isGreaterThan, Money.ensureSameCurrency]
  · norm_num +decide [Loan.create, strTrim]

/-- C9 witness: the amended theorem applied at concrete inputs. -/
theorem c9_witness :
    ((strTrim "konut-001").length ≠ 0 ∧ (strTrim "a note").length ≠ 0 ∧
      ("TRY" : String) = "TRY")
    ∧ (exceptOk (Loan.create "konut-001" demoBank ⟨"konut"⟩ ⟨0⟩ ⟨100, "TRY"⟩
        ⟨200, "TRY"⟩ ⟨12⟩ "a note") = true ↔ (100 : ℚ) ≤ 200)
    ∧ (∀ t, Term.create ((24 : ℤ) : ℚ) = .ok t →
        t.years = round2 (((24 : ℤ) : ℚ) / 12)) := by
  refine ⟨⟨by decide, by decide, rfl⟩, ?_, ?_⟩
  · exact c9_construction_validation.2.2.2 "konut-001" demoBank ⟨"konut"⟩ ⟨0⟩
      ⟨100, "TRY"⟩ ⟨200, "TRY"⟩ ⟨12⟩ "a note" (by decide) (by decide) rfl
  · exact (c9_construction_validation.2.1 24).2

/-- C10: every Money produced by the constructor or by add, subtract,
multiply or divide has a non-negative amount already rounded to 2 decimals;
subtracting a larger Money from a smaller same-currency one fails with the
negativity error instead of producing a negative Money; add and subtract
fail on mismatched currencies. -/
theorem c10_money_invariants :
    (∀ (a : ℚ) (c : String) (m : Money), Money.create a c = .ok m → m.valid)
    ∧ (∀ x y m : Money, x.add y = .ok m → m.valid)
    ∧ (∀ x y m : Money, x.subtract y = .ok m → m.valid)
    ∧ (∀ (x : Money) (f : ℚ) (m : Money), x.multiply f = .ok m → m.valid)
    ∧ (∀ (x : Money) (d : ℚ) (m : Money), x.divide d = .ok m → m.valid)
    ∧ (∀ x y : Money, x.currency = y.currency → x.amount < y.amount →
        x.subtract y = .error "Amount cannot be negative")
    ∧ (∀ x y : Money, x.currency ≠ y.currency →
        x.add y = .error "Cannot operate on different currencies" ∧
          x.subtract y = .error "Cannot operate on different currencies") := by
  refine ⟨fun a c m h => Money.create_ok_valid h, ?_, ?_, ?_, ?_,
    fun x y hc h => Money.subtract_same_neg hc h,
    fun x y hc => Money.op_mismatch hc⟩
  · intro x y m h
    unfold Money.add at h
    rcases hs : x.ensureSameCurrency y with e | u <;> rw [hs] at h
    · cases h
    · exact Money.create_ok_valid h
  · intro x y m h
    unfold Money.subtract at h
    rcases hs : x.ensureSameCurrency y with e | u <;> rw [hs] at h
    · cases h
    · exact Money.create_ok_valid h
  · intro x f m h
    exact Money.create_ok_valid h
  · intro x d m h
    unfold Money.divide at h
    split_ifs at h
    exact Money.create_ok_valid h

/-- C10 witness: the invariants applied at concrete inputs. -/
theorem c10_witness :
    (Money.create (10 : ℚ) "TRY" = .ok ⟨10, "TRY"⟩ ∧
      Money.valid ⟨10, "TRY"⟩)
    ∧ (("TRY" : String) = "TRY" ∧ (100 : ℚ) < 200 ∧
      Money.subtract ⟨100, "TRY"⟩ ⟨200, "TRY"⟩ = .error "Amount cannot be negative")
    ∧ (("TRY" : String) ≠ "USD" ∧
      Money.add ⟨100, "TRY"⟩ ⟨200, "USD"⟩ =
        .error "Cannot operate on different currencies") := by
  have h1 : Money.create (10 : ℚ) "TRY" = .ok ⟨10, "TRY"⟩ := by
    norm_num +decide [Money.create, round2, jsRound]
  refine ⟨⟨h1, c10_money_invariants.1 10 "TRY" _ h1⟩,
    ⟨rfl, by norm_num, c10_money_invariants.2.2.2.2.2.1 ⟨100, "TRY"⟩ ⟨200, "TRY"⟩
      rfl (by norm_num)⟩,
    ⟨by decide, (c10_money_invariants.2.2.2.2.2.2 ⟨100, "TRY"⟩ ⟨200, "USD"⟩
      (by decide)).1⟩⟩

/-! ### Demo catalog instances used by the concrete theorems -/

/-- A zero-rate housing loan with generous bounds. -/
def demoLoanA : Loan :=
  ⟨"konut-a", demoBank, ⟨"konut"⟩, ⟨0⟩, ⟨100000, "TRY"⟩, ⟨1000000, "TRY"⟩,
    ⟨120⟩, "note a", true⟩

/-- A zero-rate housing loan with tighter bounds, tied with demoLoanA on
cost. -/
def demoLoanB : Loan :=
  ⟨"konut-b", demoBank, ⟨"konut"⟩, ⟨0⟩, ⟨1000, "TRY"⟩, ⟨200000, "TRY"⟩,
    ⟨60⟩, "note b", true⟩

/-- An inactive housing loan whose bounds would otherwise match. -/
def demoLoanC : Loan :=
  ⟨"konut-c", demoBank, ⟨"konut"⟩, ⟨0⟩, ⟨1000, "TRY"⟩, ⟨200000, "TRY"⟩,
    ⟨60⟩, "note c", false⟩

/-- A housing loan whose minimum amount excludes the demo query. -/
def demoLoanD : Loan :=
  ⟨"konut-d", demoBank, ⟨"konut"⟩, ⟨0⟩, ⟨200000, "TRY"⟩, ⟨900000, "TRY"⟩,
    ⟨60⟩, "note d", true⟩

/-- A housing loan whose maximum term excludes the demo query. -/
def demoLoanE : Loan :=
  ⟨"konut-e", demoBank, ⟨"konut"⟩, ⟨0⟩, ⟨1000, "TRY"⟩, ⟨200000, "TRY"⟩,
    ⟨6⟩, "note e", true⟩

/-- The catalog's konut-002 loan: 1.95 percent, 150000 to 8000000,
maximum term 360 months. -/
def demoLoanK : Loan :=
  ⟨"konut-002", demoBank, ⟨"konut"⟩, ⟨195/100⟩, ⟨150000, "TRY"⟩,
    ⟨8000000, "TRY"⟩, ⟨360⟩, "Bonus Card", true⟩

/-- A zero-rate loan admitting the rounding counterexample amount 100. -/
def demoLoanZ : Loan :=
  ⟨"konut-z", demoBank, ⟨"konut"⟩, ⟨0⟩, ⟨1, "TRY"⟩, ⟨1000000, "TRY"⟩,
    ⟨360⟩, "note z", true⟩

/-- Inversion of a true eligibility check. -/
theorem isEligible_ok_true {l : Loan} {amount : Money} {term : Term}
    (h : l.isEligible amount term = .ok true) :
    l.isActive = true ∧ l.isEligibleForAmount amount = .ok true ∧
      term.months ≤ l.maxTerm.months := by
  unfold Loan.isEligible at h
  by_cases hact : l.isActive
  · rw [if_neg (by simp [hact])] at h
    rcases ha : l.isEligibleForAmount amount with e | b <;> rw [ha] at h
    · cases h
    · cases b
      · simp at h
      · simp only [Bool.not_true, Bool.false_eq_true, if_false,
          Except.ok.injEq] at h
        refine ⟨hact, ha.symm ▸ rfl, ?_⟩
        simpa [Loan.isEligibleForTerm, Term.isGreaterThan] using h
  · rw [if_pos (by simp [hact])] at h
    cases h

theorem Money.isLessThan_same {x y : Money} (h : x.currency = y.currency) :
    x.isLessThan y = .ok (decide (x.amount < y.amount)) := by
  unfold Money.isLessThan Money.ensureSameCurrency
  rw [if_neg (by simp [h])]

theorem Money.isGreaterThan_same {x y : Money} (h : x.currency = y.currency) :
    x.isGreaterThan y = .ok (decide (x.amount > y.amount)) := by
  unfold Money.isGreaterThan Money.ensureSameCurrency
  rw [if_neg (by simp [h])]

theorem isEligibleForAmount_eq (l : Loan) (amount : Money)
    (hc1 : amount.currency = l.minAmount.currency)
    (hc2 : amount.currency = l.maxAmount.currency) :
    l.isEligibleForAmount amount =
      .ok (decide (l.minAmount.amount ≤ amount.amount)
        && decide (amount.amount ≤ l.maxAmount.amount)) := by
  unfold Loan.isEligibleForAmount
  rw [Money.isLessThan_same hc1, Money.isGreaterThan_same hc2]
  by_cases hlt : amount.amount < l.minAmount.amount
  · simp [hlt, not_le.mpr hlt]
  · by_cases hgt : l.maxAmount.amount < amount.amount
    · simp [hlt, not_lt.mp hlt, hgt, not_le.mpr hgt]
    · simp [hlt, not_lt.mp hlt, hgt, not_lt.mp hgt]

theorem isEligible_eq (l : Loan) (amount : Money) (term : Term)
    (hc1 : amount.currency = l.minAmount.currency)
    (hc2 : amount.currency = l.maxAmount.currency) :
    l.isEligible amount term =
      .ok (l.isActive && decide (l.minAmount.amount ≤ amount.amount)
        && decide (amount.amount ≤ l.maxAmount.amount)
        && decide (term.months ≤ l.maxTerm.months)) := by
  unfold Loan.isEligible
  by_cases hact : l.isActive
  · rw [if_neg (by simp [hact]), isEligibleForAmount_eq l amount hc1 hc2]
    by_cases hmin : l.minAmount.amount ≤ amount.amount <;>
      by_cases hmax : amount.amount ≤ l.maxAmount.amount <;>
      by_cases hterm : term.months ≤ l.maxTerm.months <;>
      simp [hact, hmin, hmax, hterm, Loan.isEligibleForTerm,
        Term.isGreaterThan, not_lt.mpr, not_le.mp]
  · rw [if_pos (by simp [hact])]
    simp at hact
    simp [hact]

/-- C2 (amended): a loan is reported eligible iff it is active, the amount
lies in [minAmount, maxAmount] and the term does not exceed maxTerm; every
loan in a successful findEligible result satisfies term ≤ maxTerm, so a loan
whose maxTerm is below a constructible query term is absent from the
eligible set, not an error.  (The original claim's 400-month example is not
constructible: Term caps at 360, and a 400-month query fails Term
validation with an error instead — see the counterexample.) -/
theorem c2_eligibility (l : Loan) (amount : Money) (term : Term)
    (hc1 : amount.currency = l.minAmount.currency)
    (hc2 : amount.currency = l.maxAmount.currency) :
    l.isEligible amount term =
      .ok (l.isActive && decide (l.minAmount.amount ≤ amount.amount)
        && decide (amount.amount ≤ l.maxAmount.amount)
        && decide (term.months ≤ l.maxTerm.months))
    ∧ (∀ (catalog : List Loan) (ty : LoanType) (res : List Loan) (l2 : Loan),
        findEligible catalog ty amount term = .ok res → l2 ∈ res →
        term.months ≤ l2.maxTerm.months) := by
  refine ⟨isEligible_eq l amount term hc1 hc2, ?_⟩
  intro catalog ty res l2 hres hmem
  have h := (filterE_sound hres l2 hmem).2
  by_cases hty : l2.type.equals ty
  · rw [if_pos hty] at h
    exact (isEligible_ok_true h).2.2
  · rw [if_neg hty] at h
    cases h

/-- C2 counterexample: the claim's example term of 400 months cannot reach
the catalog lookup; Term construction rejects it, and a parsed 400-month
query therefore surfaces as a search error, not as a loan silently absent
from the eligible set. -/
theorem c2_counterexample :
    Term.create 400 = .error "Term cannot exceed 360 months (30 years)"
    ∧ (executeSearch [demoLoanK]
        ⟨"500000 TL 400 ay konut", none, none, none, none⟩
        ⟨true, some "konut", some 500000, some 400, some "TRY", none⟩).success
        = false
    ∧ (executeSearch [demoLoanK]
        ⟨"500000 TL 400 ay konut", none, none, none, none⟩
        ⟨true, some "konut", some 500000, some 400, some "TRY", none⟩).error
        = some "Term cannot exceed 360 months (30 years)" := by
  refine ⟨by norm_num +decide [Term.create], ?_, ?_⟩ <;>
    norm_num +decide [executeSearch, executeCore, LoanType.fromString,
      LoanType.isValidType, Money.fromNumber, Money.create, Term.fromMonths,
      Term.create, currencyOrTRY, round2, jsRound, createEmptyParams]

/-- C2 witness: the eligibility characterization applied to the konut-002
style loan at a constructible over-limit term. -/
theorem c2_witness :
    (("TRY" : String) = demoLoanK.minAmount.currency ∧
      ("TRY" : String) = demoLoanK.maxAmount.currency)
    ∧ demoLoanK.isEligible ⟨500000, "TRY"⟩ ⟨120⟩ =
      .ok (demoLoanK.isActive
        && decide (demoLoanK.minAmount.amount ≤ (500000 : ℚ))
        && decide ((500000 : ℚ) ≤ demoLoanK.maxAmount.amount)
        && decide ((120 : ℤ) ≤ demoLoanK.maxTerm.months)) :=
  ⟨⟨rfl, rfl⟩, (c2_eligibility demoLoanK ⟨500000, "TRY"⟩ ⟨120⟩ rfl rfl).1⟩

/-- C7 (amended): computing payment figures for a pair that fails the
amount-range or term check fails with a distinct error naming the cause,
and the two causes are distinguishable; the loan's active flag is not
checked by the calculation, so an inactive loan with an in-range pair still
returns a number (see the counterexample). -/
theorem c7_failure_policy (l : Loan) (amount : Money) (term : Term)
    (hc1 : amount.currency = l.minAmount.currency)
    (hc2 : amount.currency = l.maxAmount.currency) :
    (amount.amount < l.minAmount.amount ∨ l.maxAmount.amount < amount.amount →
      l.calculateMonthlyPayment amount term =
          .error "Amount is not within loan limits"
        ∧ l.calculateTotalPayment amount term =
          .error "Amount is not within loan limits")
    ∧ (l.minAmount.amount ≤ amount.amount →
        amount.amount ≤ l.maxAmount.amount →
        l.maxTerm.months < term.months →
        l.calculateMonthlyPayment amount term =
            .error "Term exceeds maximum term"
          ∧ l.calculateTotalPayment amount term =
            .error "Term exceeds maximum term")
    ∧ ("Amount is not within loan limits" : String) ≠
        "Term exceeds maximum term" := by
  refine ⟨?_, ?_, by decide⟩
  · intro hout
    have ha : l.isEligibleForAmount amount = .ok false := by
      rw [isEligibleForAmount_eq l amount hc1 hc2]
      rcases hout with hlt | hgt
      · simp [not_le.mpr hlt]
      · simp [not_le.mpr hgt]
    have hmp : l.calculateMonthlyPayment amount term =
        .error "Amount is not within loan limits" := by
      unfold Loan.calculateMonthlyPayment
      rw [ha]
      simp
    refine ⟨hmp, ?_⟩
    unfold Loan.calculateTotalPayment
    rw [hmp]
  · intro hmin hmax hterm
    have ha : l.isEligibleForAmount amount = .ok true := by
      rw [isEligibleForAmount_eq l amount hc1 hc2]
      simp [hmin, hmax]
    have hb : l.isEligibleForTerm term = false := by
      simp [Loan.isEligibleForTerm, Term.isGreaterThan, hterm]
    have hmp : l.calculateMonthlyPayment amount term =
        .error "Term exceeds maximum term" := by
      unfold Loan.calculateMonthlyPayment
      rw [ha]
      simp [hb]
    refine ⟨hmp, ?_⟩
    unfold Loan.calculateTotalPayment
    rw [hmp]

/-- C7 counterexample: an inactive loan with an amount and term inside its
limits is not eligible for the pair, yet calculateMonthlyPayment silently
returns a number instead of failing. -/
theorem c7_counterexample :
    demoLoanC.isEligible ⟨120000, "TRY"⟩ ⟨12⟩ = .ok false
    ∧ demoLoanC.calculateMonthlyPayment ⟨120000, "TRY"⟩ ⟨12⟩ =
        .ok ⟨10000, "TRY"⟩ := by
  constructor <;>
    norm_num +decide [demoLoanC, demoBank, Loan.isEligible,
      Loan.isEligibleForAmount, Loan.isEligibleForTerm, Term.isGreaterThan,
      Money.isLessThan, Money.isGreaterThan, Money.ensureSameCurrency,
      Loan.calculateMonthlyPayment, InterestRate.monthlyRate, Money.divide,
      Money.create, Money.fromNumber, round2, jsRound]

/-- C7 witness: the failure policy applied to the konut-002 style loan:
a below-minimum amount yields the amount error, an in-range amount with an
over-limit term yields the term error. -/
theorem c7_witness :
    (("TRY" : String) = demoLoanK.minAmount.currency ∧
      ("TRY" : String) = demoLoanK.maxAmount.currency ∧
      (100 : ℚ) < demoLoanK.minAmount.amount ∧
      demoLoanK.minAmount.amount ≤ (500000 : ℚ) ∧
      (500000 : ℚ) ≤ demoLoanK.maxAmount.amount ∧
      demoLoanK.maxTerm.months < (400 : ℤ))
    ∧ demoLoanK.calculateMonthlyPayment ⟨100, "TRY"⟩ ⟨12⟩ =
        .error "Amount is not within loan limits"
    ∧ demoLoanK.calculateMonthlyPayment ⟨500000, "TRY"⟩ ⟨400⟩ =
        .error "Term exceeds maximum term" := by
  refine ⟨⟨rfl, rfl, ?_, ?_, ?_, ?_⟩, ?_, ?_⟩
  · show (100 : ℚ) < 150000
    norm_num
  · show (150000 : ℚ) ≤ 500000
    norm_num
  · show (500000 : ℚ) ≤ 8000000
    norm_num
  · show (360 : ℤ) < 400
    norm_num
  · exact ((c7_failure_policy demoLoanK ⟨100, "TRY"⟩ ⟨12⟩ rfl rfl).1
      (Or.inl (by show (100 : ℚ) < 150000; norm_num))).1
  · exact ((c7_failure_policy demoLoanK ⟨500000, "TRY"⟩ ⟨400⟩ rfl rfl).2.1
      (by show (150000 : ℚ) ≤ 500000; norm_num)
      (by show (500000 : ℚ) ≤ 8000000; norm_num)
      (by show (360 : ℤ) < 400; norm_num)).1

theorem Money.create_ok_of {v : ℚ} {c : String} (hv : 0 ≤ v)
    (hc : c.length = 3) : Money.create v c = .ok ⟨round2 v, strToUpper c⟩ := by
  unfold Money.create
  rw [if_neg (not_lt.mpr hv), if_neg (by simp [hc])]

theorem Money.create_err_neg {v : ℚ} {c : String} (hv : v < 0) :
    Money.create v c = .error "Amount cannot be negative" := by
  unfold Money.create
  rw [if_pos hv]

theorem monthlyRate_eq (r : InterestRate) : r.monthlyRate = r.rate / 1200 := by
  unfold InterestRate.monthlyRate
  rw [div_div]
  norm_num

/-- Every successful monthly payment is a constructed Money over the query
currency. -/
theorem calcMP_ok_shape {l : Loan} {amount : Money} {term : Term} {mp : Money}
    (hwf : amount.wellFormed)
    (h : l.calculateMonthlyPayment amount term = .ok mp) :
    0 ≤ mp.amount ∧ mp.currency = amount.currency := by
  unfold Loan.calculateMonthlyPayment at h
  rcases ha : l.isEligibleForAmount amount with e | b <;> rw [ha] at h
  · cases h
  · cases b
    · simp at h
    · simp only [Bool.not_true, Bool.false_eq_true, if_false] at h
      split_ifs at h
      all_goals
        first
        | cases h
        | · unfold Money.divide at h
            split_ifs at h
            rw [Money.create_eq_ok] at h
            obtain ⟨hv, -, rfl⟩ := h
            exact ⟨round2_nonneg hv, hwf.2.2.1⟩
        | · unfold Money.fromNumber at h
            rw [Money.create_eq_ok] at h
            obtain ⟨hv, -, rfl⟩ := h
            exact ⟨round2_nonneg hv, hwf.2.2.1⟩

/-- With both guards satisfied, calculateMonthlyPayment is the zero-rate
division or the amortization formula. -/
theorem calcMP_eq_of_eligible {l : Loan} {amount : Money} {term : Term}
    (ha : l.isEligibleForAmount amount = .ok true)
    (hb : l.isEligibleForTerm term = true) :
    l.calculateMonthlyPayment amount term =
      if l.interestRate.monthlyRate = 0 then amount.divide (term.months : ℚ)
      else
        Money.fromNumber
          (amount.amount * (l.interestRate.monthlyRate *
              (1 + l.interestRate.monthlyRate) ^ term.months.toNat) /
            ((1 + l.interestRate.monthlyRate) ^ term.months.toNat - 1))
          amount.currency := by
  unfold Loan.calculateMonthlyPayment
  rw [ha, hb]
  rfl

theorem calcTP_eq {l : Loan} {amount : Money} {term : Term} {mp : Money}
    (hmp : l.calculateMonthlyPayment amount term = .ok mp) :
    l.calculateTotalPayment amount term = mp.multiply (term.months : ℚ) := by
  unfold Loan.calculateTotalPayment
  rw [hmp]

theorem calcTP_err {l : Loan} {amount : Money} {term : Term} {e : String}
    (hmp : l.calculateMonthlyPayment amount term = .error e) :
    l.calculateTotalPayment amount term = .error e := by
  unfold Loan.calculateTotalPayment
  rw [hmp]

theorem calcTI_eq {l : Loan} {amount : Money} {term : Term} {tp : Money}
    (htp : l.calculateTotalPayment amount term = .ok tp) :
    calculateTotalInterest l amount term = tp.subtract amount := by
  unfold calculateTotalInterest
  rw [htp]

theorem Money.subtract_same {x y : Money} (h : x.currency = y.currency) :
    x.subtract y = Money.create (x.amount - y.amount) x.currency := by
  unfold Money.subtract Money.ensureSameCurrency
  rw [if_neg (by simp [h])]

theorem Money.multiply_eq (m : Money) (f : ℚ) :
    m.multiply f = Money.create (m.amount * f) m.currency := rfl

/-- Every successful total payment is a constructed Money over the query
currency. -/
theorem calcTP_ok_shape {l : Loan} {amount : Money} {term : Term} {tp : Money}
    (hwf : amount.wellFormed)
    (h : l.calculateTotalPayment amount term = .ok tp) :
    0 ≤ tp.amount ∧ tp.currency = amount.currency := by
  rcases hmp : l.calculateMonthlyPayment amount term with e | mp
  · rw [calcTP_err hmp] at h
    cases h
  · rw [calcTP_eq hmp, Money.multiply_eq, Money.create_eq_ok] at h
    obtain ⟨hv, -, rfl⟩ := h
    obtain ⟨-, hcur⟩ := calcMP_ok_shape hwf hmp
    refine ⟨round2_nonneg hv, ?_⟩
    show strToUpper mp.currency = amount.currency
    rw [hcur]
    exact hwf.2.2.1

/-- C1 (amended): for every eligible (amount, term) with a well-formed
amount Money and at least one month, the monthly payment is the claim's
amortization value rounded at the Money boundary — amount·r·(1+r)^n /
((1+r)^n − 1) with r = annualRate/1200 when r > 0, amount/n when r = 0 —
and the total payment is monthlyPayment·n rounded at the Money boundary.
The total interest equals totalPayment − amount only when that difference
is non-negative; when Money rounding makes totalPayment < amount the
subtraction is rejected by the Money constructor and the computation fails
(see the counterexample). -/
theorem c1_amortization (l : Loan) (amount : Money) (term : Term)
    (hwf : amount.wellFormed) (hm : 1 ≤ term.months)
    (helig : l.isEligible amount term = .ok true) :
    (l.interestRate.rate = 0 →
      l.calculateMonthlyPayment amount term =
        .ok ⟨round2 (amount.amount / (term.months : ℚ)), amount.currency⟩)
    ∧ (0 < l.interestRate.rate →
        l.calculateMonthlyPayment amount term =
          .ok ⟨round2 (amount.amount *
              ((l.interestRate.rate / 1200) *
                (1 + l.interestRate.rate / 1200) ^ term.months.toNat) /
              ((1 + l.interestRate.rate / 1200) ^ term.months.toNat - 1)),
            amount.currency⟩)
    ∧ (∀ mp, l.calculateMonthlyPayment amount term = .ok mp →
        l.calculateTotalPayment amount term =
          .ok ⟨round2 (mp.amount * (term.months : ℚ)), amount.currency⟩)
    ∧ (∀ tp, l.calculateTotalPayment amount term = .ok tp →
        (amount.amount ≤ tp.amount →
          calculateTotalInterest l amount term =
            .ok ⟨round2 (tp.amount - amount.amount), amount.currency⟩)
        ∧ (tp.amount < amount.amount →
          calculateTotalInterest l amount term =
            .error "Amount cannot be negative")) := by
  obtain ⟨hact, ha, hterm⟩ := isEligible_ok_true helig
  have hb : l.isEligibleForTerm term = true := by
    simp [Loan.isEligibleForTerm, Term.isGreaterThan, not_lt.mpr hterm]
  have hn0 : (term.months : ℚ) ≠ 0 := by
    exact_mod_cast (by omega : term.months ≠ 0)
  have hnn : (0 : ℚ) ≤ (term.months : ℚ) := by
    exact_mod_cast (by omega : (0 : ℤ) ≤ term.months)
  refine ⟨?_, ?_, ?_, ?_⟩
  · intro h0
    rw [calcMP_eq_of_eligible ha hb,
      if_pos (show l.interestRate.monthlyRate = 0 by
        rw [monthlyRate_eq, h0]; norm_num)]
    unfold Money.divide
    rw [if_neg hn0, Money.create_ok_of (div_nonneg hwf.1 hnn) hwf.2.2.2,
      hwf.2.2.1]
  · intro hpos
    have hr : 0 < l.interestRate.rate / 1200 := by positivity
    rw [calcMP_eq_of_eligible ha hb,
      if_neg (show ¬ l.interestRate.monthlyRate = 0 by
        rw [monthlyRate_eq]; positivity),
      monthlyRate_eq]
    unfold Money.fromNumber
    have hpow : (1 : ℚ) < (1 + l.interestRate.rate / 1200) ^ term.months.toNat := by
      refine one_lt_pow₀ (by linarith) ?_
      omega
    have hnum : 0 ≤ amount.amount *
        ((l.interestRate.rate / 1200) *
          (1 + l.interestRate.rate / 1200) ^ term.months.toNat) := by
      have := hwf.1
      positivity
    rw [Money.create_ok_of (div_nonneg hnum (by linarith)) hwf.2.2.2, hwf.2.2.1]
  · intro mp hmp
    obtain ⟨hmp0, hmpc⟩ := calcMP_ok_shape hwf hmp
    rw [calcTP_eq hmp, Money.multiply_eq,
      Money.create_ok_of (mul_nonneg hmp0 hnn) (by rw [hmpc]; exact hwf.2.2.2),
      hmpc, hwf.2.2.1]
  · intro tp htp
    obtain ⟨htp0, htpc⟩ := calcTP_ok_shape hwf htp
    rw [calcTI_eq htp, Money.subtract_same htpc]
    constructor
    · intro hle
      rw [Money.create_ok_of (by linarith) (by rw [htpc]; exact hwf.2.2.2),
        htpc, hwf.2.2.1]
    · intro hlt
      exact Money.create_err_neg (by linarith)

/-- C1 counterexample: at rate 0 with amount 100 and term 3 the monthly
payment rounds to 33.33, the total payment to 99.99 < 100, and the total
interest computation fails with the Money negativity error instead of
equalling totalPayment − amount. -/
theorem c1_counterexample :
    demoLoanZ.isEligible ⟨100, "TRY"⟩ ⟨3⟩ = .ok true
    ∧ demoLoanZ.calculateMonthlyPayment ⟨100, "TRY"⟩ ⟨3⟩ =
        .ok ⟨3333/100, "TRY"⟩
    ∧ demoLoanZ.calculateTotalPayment ⟨100, "TRY"⟩ ⟨3⟩ =
        .ok ⟨9999/100, "TRY"⟩
    ∧ (9999/100 : ℚ) < 100
    ∧ calculateTotalInterest demoLoanZ ⟨100, "TRY"⟩ ⟨3⟩ =
        .error "Amount cannot be negative" := by
  refine ⟨?_, ?_, ?_, by norm_num, ?_⟩ <;>
    norm_num +decide [demoLoanZ, demoBank, Loan.isEligible,
      Loan.isEligibleForAmount, Loan.isEligibleForTerm, Term.isGreaterThan,
      Money.isLessThan, Money.isGreaterThan, Money.ensureSameCurrency,
      Loan.calculateMonthlyPayment, Loan.calculateTotalPayment,
      calculateTotalInterest, InterestRate.monthlyRate, Money.divide,
      Money.multiply, Money.subtract, Money.create, Money.fromNumber,
      round2, jsRound]

/-- C1 witness: the amortization theorem applied to the konut-002 style
loan at the spec's scenario (2,000,000 TRY over 60 months at 1.95). -/
theorem c1_witness :
    (Money.wellFormed ⟨2000000, "TRY"⟩ ∧ (1 : ℤ) ≤ 60 ∧
      demoLoanK.isEligible ⟨2000000, "TRY"⟩ ⟨60⟩ = .ok true)
    ∧ (0 < demoLoanK.interestRate.rate →
        demoLoanK.calculateMonthlyPayment ⟨2000000, "TRY"⟩ ⟨60⟩ =
          .ok ⟨round2 ((2000000 : ℚ) *
              ((demoLoanK.interestRate.rate / 1200) *
                (1 + demoLoanK.interestRate.rate / 1200) ^ (60 : ℤ).toNat) /
              ((1 + demoLoanK.interestRate.rate / 1200) ^ (60 : ℤ).toNat - 1)),
            "TRY"⟩) := by
  have hwf : Money.wellFormed (⟨2000000, "TRY"⟩ : Money) := by
    refine ⟨by norm_num, ?_, by decide, by decide⟩
    norm_num [round2, jsRound]
  have helig : demoLoanK.isEligible ⟨2000000, "TRY"⟩ ⟨60⟩ = .ok true := by
    norm_num +decide [demoLoanK, demoBank, Loan.isEligible,
      Loan.isEligibleForAmount, Loan.isEligibleForTerm, Term.isGreaterThan,
      Money.isLessThan, Money.isGreaterThan, Money.ensureSameCurrency]
  exact ⟨⟨hwf, by norm_num, helig⟩,
    (c1_amortization demoLoanK ⟨2000000, "TRY"⟩ ⟨60⟩ hwf (by norm_num) helig).2.1⟩

/-- Inversion of a successful buildComparison. -/
theorem buildComparison_ok {amount : Money} {term : Term} {l : Loan}
    {c : LoanComparison} (h : buildComparison amount term l = .ok c) :
    c.loan = l
    ∧ l.calculateMonthlyPayment amount term = .ok c.monthlyPayment
    ∧ l.calculateTotalPayment amount term = .ok c.totalPayment
    ∧ calculateTotalInterest l amount term = .ok c.totalInterest := by
  unfold buildComparison at h
  rcases h1 : l.calculateMonthlyPayment amount term with e | mp <;> rw [h1] at h
  · cases h
  · rcases h2 : l.calculateTotalPayment amount term with e | tp <;> rw [h2] at h
    · cases h
    · rcases h3 : calculateTotalInterest l amount term with e | ti <;> rw [h3] at h
      · cases h
      · simp only [Except.ok.injEq] at h
        subst h
        exact ⟨rfl, rfl, rfl, rfl⟩

/-- C3: compareLoans sorts the per-loan figures of exactly the eligible
loans ascending by totalPayment; ties keep the catalog order (the filter on
any fixed totalPayment value is unchanged by the sort); every output row
carries the loan's own monthlyPayment, totalPayment and totalInterest; and
ineligible or inactive loans are absent, never present with an error
marker. -/
theorem c3_compare_ranking (loans : List Loan) (amount : Money) (term : Term)
    (pre : List LoanComparison)
    (hpre : eligibleComparisons loans amount term = .ok pre) :
    compareLoans loans amount term = .ok (List.insertionSort cmpRel pre)
    ∧ (List.insertionSort cmpRel pre).Pairwise
        (fun a b => a.totalPayment.amount ≤ b.totalPayment.amount)
    ∧ List.Perm (List.insertionSort cmpRel pre) pre
    ∧ (∀ k : ℚ, (List.insertionSort cmpRel pre).filter
        (fun c => decide (c.totalPayment.amount = k)) =
        pre.filter (fun c => decide (c.totalPayment.amount = k)))
    ∧ (∀ c ∈ List.insertionSort cmpRel pre,
        c.loan ∈ loans ∧ c.loan.isEligible amount term = .ok true
        ∧ c.loan.calculateMonthlyPayment amount term = .ok c.monthlyPayment
        ∧ c.loan.calculateTotalPayment amount term = .ok c.totalPayment
        ∧ calculateTotalInterest c.loan amount term = .ok c.totalInterest)
    ∧ (∀ l ∈ loans, l.isEligible amount term = .ok true →
        ∃ c ∈ List.insertionSort cmpRel pre, c.loan = l) := by
  have hcomp : compareLoans loans amount term =
      .ok (List.insertionSort cmpRel pre) := by
    unfold compareLoans
    rw [hpre]
  rcases hf : filterE (fun l => l.isEligible amount term) loans with e | elig
  · unfold eligibleComparisons at hpre
    rw [hf] at hpre
    cases hpre
  · have hmap : mapE (buildComparison amount term) elig = .ok pre := by
      unfold eligibleComparisons at hpre
      rw [hf] at hpre
      exact hpre
    refine ⟨hcomp, List.sorted_insertionSort cmpRel pre,
      List.perm_insertionSort cmpRel pre,
      fun k => filter_insertionSort_key k pre, ?_, ?_⟩
    · intro c hc
      have hcpre : c ∈ pre := (List.mem_insertionSort cmpRel).mp hc
      obtain ⟨x, hx, hbc⟩ := mapE_sound hmap c hcpre
      obtain ⟨hcl, h1, h2, h3⟩ := buildComparison_ok hbc
      obtain ⟨hxl, hxe⟩ := filterE_sound hf x hx
      subst hcl
      exact ⟨hxl, hxe, h1, h2, h3⟩
    · intro l hl hle
      have hlelig : l ∈ elig := filterE_complete hf l hl hle
      obtain ⟨c, hc, hbc⟩ := mapE_complete hmap l hlelig
      exact ⟨c, (List.mem_insertionSort cmpRel).mpr hc,
        (buildComparison_ok hbc).1⟩

/-- C3 witness: the ranking theorem applied to the demo catalog: the two
eligible zero-rate loans appear with their figures, tied on totalPayment in
catalog order; the inactive, out-of-range and over-term loans are absent. -/
theorem c3_witness :
    (eligibleComparisons [demoLoanA, demoLoanB, demoLoanC, demoLoanD,
        demoLoanE] ⟨120000, "TRY"⟩ ⟨12⟩ =
      .ok [⟨demoLoanA, ⟨10000, "TRY"⟩, ⟨120000, "TRY"⟩, ⟨0, "TRY"⟩⟩,
        ⟨demoLoanB, ⟨10000, "TRY"⟩, ⟨120000, "TRY"⟩, ⟨0, "TRY"⟩⟩])
    ∧ compareLoans [demoLoanA, demoLoanB, demoLoanC, demoLoanD, demoLoanE]
        ⟨120000, "TRY"⟩ ⟨12⟩ =
      .ok (List.insertionSort cmpRel
        [⟨demoLoanA, ⟨10000, "TRY"⟩, ⟨120000, "TRY"⟩, ⟨0, "TRY"⟩⟩,
          ⟨demoLoanB, ⟨10000, "TRY"⟩, ⟨120000, "TRY"⟩, ⟨0, "TRY"⟩⟩])
    ∧ (List.insertionSort cmpRel
        [⟨demoLoanA, ⟨10000, "TRY"⟩, ⟨120000, "TRY"⟩, ⟨0, "TRY"⟩⟩,
          ⟨demoLoanB, ⟨10000, "TRY"⟩, ⟨120000, "TRY"⟩, ⟨0, "TRY"⟩⟩]).Pairwise
        (fun a b => a.totalPayment.amount ≤ b.totalPayment.amount) := by
  have hpre : eligibleComparisons [demoLoanA, demoLoanB, demoLoanC, demoLoanD,
      demoLoanE] ⟨120000, "TRY"⟩ ⟨12⟩ =
      .ok [⟨demoLoanA, ⟨10000, "TRY"⟩, ⟨120000, "TRY"⟩, ⟨0, "TRY"⟩⟩,
        ⟨demoLoanB, ⟨10000, "TRY"⟩, ⟨120000, "TRY"⟩, ⟨0, "TRY"⟩⟩] := by
    norm_num +decide [eligibleComparisons, filterE, mapE, buildComparison,
      Loan.isEligible, Loan.isEligibleForAmount, Loan.isEligibleForTerm,
      Money.isLessThan, Money.isGreaterThan, Money.ensureSameCurrency,
      Loan.calculateMonthlyPayment, Loan.calculateTotalPayment,
      calculateTotalInterest, Money.divide, Money.multiply, Money.subtract,
      Money.create, Money.fromNumber, InterestRate.monthlyRate, round2,
      jsRound, Term.isGreaterThan, demoLoanA, demoLoanB, demoLoanC,
      demoLoanD, demoLoanE, demoBank]
  have h := c3_compare_ranking _ _ _ _ hpre
  exact ⟨hpre, h.1, h.2.1⟩

/-- The configured pair is always two distinct providers. -/
theorem recommendation_distinct (language : SupportedLanguage) :
    (getRecommendedProvider language).primary ≠
      (getRecommendedProvider language).fallback := by
  cases language <;> decide

/-- A concrete provider response used by the cascade witness. -/
def demoResponse : AIProviderResponse :=
  ⟨some .konut, some 5000000, some 48, 9/10, "ok",
    ⟨["konut"], some "5 milyon", some "48 ay", some "konut"⟩, [], true,
    .claude⟩

/-- A concrete attempt oracle: the OpenAI adapter throws, the Claude
adapter answers. -/
def demoAttempt : AIProviderType → Except String AIProviderResponse
  | .openai => .error "primary down"
  | .claude => .ok demoResponse
  | .mock => .error "unused"

/-- C4: when the active provider's parse throws, exactly one fallback
attempt is made, with the other member of the configured pair; the cascade
then stops — two backend attempts total, never a third — and the outcome is
either the fallback's converted answer or the terminal confidence-0
all-providers-failed response; the cascade itself is a total function, so
no exception reaches the caller. -/
theorem c4_fallback_cascade (active : AIProviderType)
    (language : SupportedLanguage)
    (attempt : AIProviderType → Except String AIProviderResponse)
    (text : String) (e : String) (hfail : attempt active = .error e)
    (hmember : active = (getRecommendedProvider language).primary ∨
      active = (getRecommendedProvider language).fallback) :
    (nlParseQuery active language attempt text).2 =
      [active, fallbackChoice active language]
    ∧ (nlParseQuery active language attempt text).2.length = 2
    ∧ fallbackChoice active language ≠ active
    ∧ (fallbackChoice active language = (getRecommendedProvider language).primary
        ∨ fallbackChoice active language = (getRecommendedProvider language).fallback)
    ∧ (∀ r, attempt (fallbackChoice active language) = .ok r →
        (nlParseQuery active language attempt text).1 = convertToParseQuery r text)
    ∧ (∀ e2, attempt (fallbackChoice active language) = .error e2 →
        (nlParseQuery active language attempt text).1 = createFailedResponse text)
    ∧ (createFailedResponse text).confidence = 0
    ∧ (createFailedResponse text).claudeResponse = some
        ⟨some "Tum AI providers basarisiz oldu", some ["ALL_PROVIDERS_FAILED"]⟩ := by
  have hdistinct := recommendation_distinct language
  have hother : fallbackChoice active language ≠ active ∧
      (fallbackChoice active language = (getRecommendedProvider language).primary
        ∨ fallbackChoice active language =
            (getRecommendedProvider language).fallback) := by
    unfold fallbackChoice
    rcases hmember with hp | hf
    · rw [if_pos hp, hp]
      exact ⟨fun h => hdistinct h.symm, Or.inr rfl⟩
    · rw [if_neg (by rw [hf]; exact fun h => hdistinct h.symm), hf]
      exact ⟨hdistinct, Or.inl rfl⟩
  unfold nlParseQuery
  rw [hfail]
  rcases h2 : attempt (fallbackChoice active language) with e2 | r
  · refine ⟨rfl, rfl, hother.1, hother.2, ?_, ?_, rfl, rfl⟩
    · intro r hr
      cases hr
    · intro e3 he3
      rfl
  · refine ⟨rfl, rfl, hother.1, hother.2, ?_, ?_, rfl, rfl⟩
    · intro r2 hr2
      cases hr2
      rfl
    · intro e3 he3
      cases he3

/-- C4 witness: the cascade applied to a throwing OpenAI adapter with the
Turkish pair: Claude is the single fallback attempted and its answer is
returned. -/
theorem c4_witness :
    (demoAttempt .openai = .error "primary down" ∧
      (AIProviderType.openai = (getRecommendedProvider .turkish).primary ∨
        AIProviderType.openai = (getRecommendedProvider .turkish).fallback))
    ∧ (nlParseQuery .openai .turkish demoAttempt "5 milyon 48 ay konut").2 =
        [.openai, fallbackChoice .openai .turkish]
    ∧ (nlParseQuery .openai .turkish demoAttempt "5 milyon 48 ay konut").1 =
        convertToParseQuery demoResponse "5 milyon 48 ay konut" := by
  have h := c4_fallback_cascade .openai .turkish demoAttempt
    "5 milyon 48 ay konut" "primary down" rfl (Or.inl (by decide))
  exact ⟨⟨rfl, Or.inl (by decide)⟩, h.1, h.2.2.2.2.1 demoResponse rfl⟩

/-- Shared behaviour of getDiagnostics for any adapter whose parse call
fails locally (no network) on a missing key and reaches the network
otherwise. -/
theorem getDiagnostics_spec (provider : AIProviderType)
    (formatOk : String → Bool) (supportedModels : List String)
    (missingMsg invalidMsg failMsg : String)
    (parse : AIProviderConfig → NetworkOutcome → AIProviderResponse × Bool)
    (cfg : AIProviderConfig) (network : NetworkOutcome)
    (hmiss : cfg.apiKey = "" →
      (parse cfg network).1.isLoanQuery = false ∧ (parse cfg network).2 = false)
    (hpres : cfg.apiKey ≠ "" → (parse cfg network).2 = true) :
    ((getDiagnostics provider formatOk supportedModels missingMsg invalidMsg
        failMsg parse cfg network).1.apiKeyStatus = "missing" ↔ cfg.apiKey = "")
    ∧ ((getDiagnostics provider formatOk supportedModels missingMsg invalidMsg
        failMsg parse cfg network).1.apiKeyStatus = "invalid_format" ↔
        cfg.apiKey ≠ "" ∧ formatOk cfg.apiKey = false)
    ∧ (cfg.apiKey = "" →
        (getDiagnostics provider formatOk supportedModels missingMsg invalidMsg
          failMsg parse cfg network).2 = false ∧
        (getDiagnostics provider formatOk supportedModels missingMsg invalidMsg
          failMsg parse cfg network).1.connectionStatus = "failed")
    ∧ (cfg.apiKey ≠ "" →
        (getDiagnostics provider formatOk supportedModels missingMsg invalidMsg
          failMsg parse cfg network).2 = true)
    ∧ ((getDiagnostics provider formatOk supportedModels missingMsg invalidMsg
        failMsg parse cfg network).1.connectionStatus = "success" ∨
        (getDiagnostics provider formatOk supportedModels missingMsg invalidMsg
          failMsg parse cfg network).1.connectionStatus = "failed") := by
  have heq : getDiagnostics provider formatOk supportedModels missingMsg
      invalidMsg failMsg parse cfg network =
      (⟨provider,
        if cfg.apiKey = "" then "missing"
        else if !(formatOk cfg.apiKey) then "invalid_format" else "configured",
        if (parse cfg network).1.isLoanQuery &&
            decide ((parse cfg network).1.confidence > 0) then "success"
          else "failed",
        (if cfg.apiKey = "" then [missingMsg]
          else if !(formatOk cfg.apiKey) then [invalidMsg] else []) ++
          (if supportedModels.any (fun m => strIncludes cfg.model m) then []
            else ["Model may be unsupported"]) ++
          (if (parse cfg network).1.isLoanQuery &&
              decide ((parse cfg network).1.confidence > 0) then []
            else [failMsg]),
        supportedModels.any (fun m => strIncludes cfg.model m)⟩,
      (parse cfg network).2) := by
    unfold getDiagnostics testConnectivity
    rcases hp : parse cfg network with ⟨r, used⟩
    rfl
  rw [heq]
  by_cases hkey : cfg.apiKey = ""
  · obtain ⟨hl, hu⟩ := hmiss hkey
    have hs1 : ("missing" : String) ≠ "invalid_format" := by decide
    refine ⟨by simp [hkey], by simp [hkey, hs1], ?_, fun h => absurd hkey h, ?_⟩
    · intro h
      exact ⟨hu, by simp [hkey, hl]⟩
    · right
      simp [hl]
  · have hu := hpres hkey
    by_cases hfmt : formatOk cfg.apiKey
    · have hs2 : ("configured" : String) ≠ "missing" := by decide
      have hs3 : ("configured" : String) ≠ "invalid_format" := by decide
      refine ⟨by simp [hkey, hfmt, hs2], by simp [hkey, hfmt, hs3], ?_,
        fun h => hu, ?_⟩
      · intro h
        exact absurd h hkey
      · by_cases hconn : ((parse cfg network).1.isLoanQuery &&
            decide ((parse cfg network).1.confidence > 0)) = true
        · left
          rw [if_pos hconn]
        · right
          rw [if_neg hconn]
    · have hs4 : ("invalid_format" : String) ≠ "missing" := by decide
      simp only [Bool.not_eq_true] at hfmt
      refine ⟨by simp [hkey, hfmt, hs4], by simp [hkey, hfmt], ?_,
        fun h => hu, ?_⟩
      · intro h
        exact absurd h hkey
      · by_cases hconn : ((parse cfg network).1.isLoanQuery &&
            decide ((parse cfg network).1.confidence > 0)) = true
        · left
          rw [if_pos hconn]
        · right
          rw [if_neg hconn]

theorem openAIParseQuery_missing {cfg : AIProviderConfig}
    (network : NetworkOutcome) (h : cfg.apiKey = "") :
    (openAIParseQuery cfg network).1.isLoanQuery = false ∧
      (openAIParseQuery cfg network).2 = false := by
  unfold openAIParseQuery
  rw [if_pos h]
  exact ⟨rfl, rfl⟩

theorem openAIParseQuery_present {cfg : AIProviderConfig}
    (network : NetworkOutcome) (h : cfg.apiKey ≠ "") :
    (openAIParseQuery cfg network).2 = true := by
  unfold openAIParseQuery
  rw [if_neg h]
  rcases network with e | r <;> rfl

theorem claudeParseQuery_missing {cfg : AIProviderConfig}
    (network : NetworkOutcome) (h : cfg.apiKey = "") :
    (claudeParseQuery cfg network).1.isLoanQuery = false ∧
      (claudeParseQuery cfg network).2 = false := by
  unfold claudeParseQuery
  rw [if_pos h]
  exact ⟨rfl, rfl⟩

theorem claudeParseQuery_present {cfg : AIProviderConfig}
    (network : NetworkOutcome) (h : cfg.apiKey ≠ "") :
    (claudeParseQuery cfg network).2 = true := by
  unfold claudeParseQuery
  rw [if_neg h]
  rcases network with e | r <;> rfl

/-- C8 (amended): for both adapters, getDiagnostics reports
apiKeyStatus "missing" exactly when the credential is absent and
"invalid_format" exactly when it is present but fails the structural prefix
check, and the format check is evaluated before the connectivity test; but
the connectivity test always runs: with a missing key it fails locally
without any network use and leaves connectionStatus "failed", and with any
present key (valid or malformed) the network is probed; connectionStatus is
always "success" or "failed", never "not_tested". -/
theorem c8_diagnostics (cfg : AIProviderConfig) (network : NetworkOutcome) :
    (((openAIGetDiagnostics cfg network).1.apiKeyStatus = "missing" ↔
        cfg.apiKey = "")
      ∧ ((openAIGetDiagnostics cfg network).1.apiKeyStatus = "invalid_format" ↔
          cfg.apiKey ≠ "" ∧ strStartsWith cfg.apiKey "sk-" = false)
      ∧ (cfg.apiKey = "" → (openAIGetDiagnostics cfg network).2 = false ∧
          (openAIGetDiagnostics cfg network).1.connectionStatus = "failed")
      ∧ (cfg.apiKey ≠ "" → (openAIGetDiagnostics cfg network).2 = true)
      ∧ ((openAIGetDiagnostics cfg network).1.connectionStatus = "success" ∨
          (openAIGetDiagnostics cfg network).1.connectionStatus = "failed"))
    ∧ (((claudeGetDiagnostics cfg network).1.apiKeyStatus = "missing" ↔
        cfg.apiKey = "")
      ∧ ((claudeGetDiagnostics cfg network).1.apiKeyStatus = "invalid_format" ↔
          cfg.apiKey ≠ "" ∧ strStartsWith cfg.apiKey "sk-ant-" = false)
      ∧ (cfg.apiKey = "" → (claudeGetDiagnostics cfg network).2 = false ∧
          (claudeGetDiagnostics cfg network).1.connectionStatus = "failed")
      ∧ (cfg.apiKey ≠ "" → (claudeGetDiagnostics cfg network).2 = true)
      ∧ ((claudeGetDiagnostics cfg network).1.connectionStatus = "success" ∨
          (claudeGetDiagnostics cfg network).1.connectionStatus = "failed")) :=
  ⟨getDiagnostics_spec .openai (fun k => strStartsWith k "sk-") _ _ _ _
      openAIParseQuery cfg network (openAIParseQuery_missing network)
      (openAIParseQuery_present network),
    getDiagnostics_spec .claude (fun k => strStartsWith k "sk-ant-") _ _ _ _
      claudeParseQuery cfg network (claudeParseQuery_missing network)
      (claudeParseQuery_present network)⟩

/-- C8 counterexample: with a missing key the connectivity test still runs
(locally) and leaves connectionStatus "failed", not "not_tested"; with a
present but malformed key ("invalid_format") the network probe is still
attempted, contradicting "stops before any network probe". -/
theorem c8_counterexample :
    (openAIGetDiagnostics ⟨.openai, "", "gpt-3.5-turbo", 800, 1/10⟩
        (.error ⟨"CONNECTION_ERROR", "down", "retry"⟩)).1.apiKeyStatus =
      "missing"
    ∧ (openAIGetDiagnostics ⟨.openai, "", "gpt-3.5-turbo", 800, 1/10⟩
        (.error ⟨"CONNECTION_ERROR", "down", "retry"⟩)).1.connectionStatus =
      "failed"
    ∧ (openAIGetDiagnostics ⟨.openai, "bad-key", "gpt-3.5-turbo", 800, 1/10⟩
        (.error ⟨"CONNECTION_ERROR", "down", "retry"⟩)).1.apiKeyStatus =
      "invalid_format"
    ∧ (openAIGetDiagnostics ⟨.openai, "bad-key", "gpt-3.5-turbo", 800, 1/10⟩
        (.error ⟨"CONNECTION_ERROR", "down", "retry"⟩)).2 = true := by
  refine ⟨rfl, ?_, rfl, rfl⟩
  rfl

/-- C8 witness: the amended diagnostics behaviour at a missing-key OpenAI
configuration and a malformed-key Claude configuration. -/
theorem c8_witness :
    ((openAIGetDiagnostics ⟨.openai, "", "gpt-4", 800, 1/10⟩
        (.ok demoResponse)).1.apiKeyStatus = "missing" ↔ ("" : String) = "")
    ∧ (("sk-wrong" : String) ≠ "" →
        (claudeGetDiagnostics ⟨.claude, "sk-wrong", "claude-3-haiku", 800,
          1/10⟩ (.ok demoResponse)).2 = true) :=
  ⟨(c8_diagnostics ⟨.openai, "", "gpt-4", 800, 1/10⟩ (.ok demoResponse)).1.1,
    (c8_diagnostics ⟨.claude, "sk-wrong", "claude-3-haiku", 800, 1/10⟩
      (.ok demoResponse)).2.2.2.2.1⟩

/-- Every successful executeCore response is a success DTO echoing the
query with count equal to the number of returned loans. -/
theorem executeCore_ok_shape {catalog : List Loan}
    {request : LoanSearchRequest} {pr : QueryParseResult}
    {resp : LoanSearchResponse}
    (h : executeCore catalog request pr = .ok resp) :
    resp.success = true ∧ resp.error = none ∧
      resp.totalFound = resp.loans.length ∧ resp.query = request.query := by
  unfold executeCore at h
  split at h
  · cases h
  split at h
  · cases h
  split at h
  · cases h
  split at h
  · cases h
  split at h
  · cases h
  simp only [Except.ok.injEq] at h
  subst h
  exact ⟨rfl, rfl, rfl, rfl⟩

/-- C5: the search operation is a total function into structured responses:
it echoes the query, every response is a success or carries an error
message, a parse failure surfaces as success=false with the parse error, a
thrown domain error (value-object construction included) surfaces as
success=false with that message, and a successful pipeline returns the
success DTO with count = number of loans, never an exception. -/
theorem c5_search_contract (catalog : List Loan) (request : LoanSearchRequest)
    (pr : QueryParseResult) :
    (executeSearch catalog request pr).query = request.query
    ∧ ((executeSearch catalog request pr).success = true ∨
        (executeSearch catalog request pr).error.isSome = true)
    ∧ (pr.success = false →
        (executeSearch catalog request pr).success = false ∧
        (executeSearch catalog request pr).error =
          some (pr.error.getD "Query could not be parsed"))
    ∧ (∀ msg, pr.success = true →
        executeCore catalog request pr = .error msg →
        (executeSearch catalog request pr).success = false ∧
        (executeSearch catalog request pr).error = some msg)
    ∧ (∀ resp, pr.success = true →
        executeCore catalog request pr = .ok resp →
        executeSearch catalog request pr = resp ∧ resp.success = true ∧
        resp.error = none ∧ resp.totalFound = resp.loans.length ∧
        resp.query = request.query) := by
  by_cases hs : pr.success = true
  · rcases hc : executeCore catalog request pr with e | resp
    · have hE : executeSearch catalog request pr =
          { query := request.query, parsedParams := createEmptyParams,
            loans := [], totalFound := 0, success := false,
            error := some e } := by
        unfold executeSearch
        rw [if_neg (by simp [hs]), hc]
      refine ⟨by rw [hE], Or.inr (by rw [hE]; rfl), ?_, ?_, ?_⟩
      · intro h
        rw [hs] at h
        cases h
      · intro msg hps hmsg
        cases hmsg
        rw [hE]
        exact ⟨rfl, rfl⟩
      · intro resp hps hok
        cases hok
    · have hE : executeSearch catalog request pr = resp := by
        unfold executeSearch
        rw [if_neg (by simp [hs]), hc]
      obtain ⟨ha, hb, hcnt, hq⟩ := executeCore_ok_shape hc
      refine ⟨by rw [hE, hq], Or.inl (by rw [hE, ha]), ?_, ?_, ?_⟩
      · intro h
        rw [hs] at h
        cases h
      · intro msg hps hmsg
        cases hmsg
      · intro resp2 hps hok
        cases hok
        exact ⟨hE, ha, hb, hcnt, hq⟩
  · have hE : executeSearch catalog request pr =
        { query := request.query, parsedParams := createEmptyParams,
          loans := [], totalFound := 0, success := false,
          error := some (pr.error.getD "Query could not be parsed") } := by
      unfold executeSearch
      rw [if_pos (by simp [hs])]
    refine ⟨by rw [hE], Or.inr (by rw [hE]; rfl), ?_, ?_, ?_⟩
    · intro h
      rw [hE]
      exact ⟨rfl, rfl⟩
    · intro msg hps hmsg
      exact absurd hps hs
    · intro resp hps hok
      exact absurd hps hs

/-- C5 witness: a parsed query with a negative amount makes Money
construction fail and the failure message becomes the call's user-visible
error, with no exception. -/
theorem c5_witness :
    ((⟨true, some "konut", some (-5), some 60, some "TRY", none⟩ :
        QueryParseResult).success = true
      ∧ executeCore [] ⟨"konut -5 TL", none, none, none, none⟩
          ⟨true, some "konut", some (-5), some 60, some "TRY", none⟩ =
        .error "Amount cannot be negative")
    ∧ (executeSearch [] ⟨"konut -5 TL", none, none, none, none⟩
        ⟨true, some "konut", some (-5), some 60, some "TRY", none⟩).success =
      false
    ∧ (executeSearch [] ⟨"konut -5 TL", none, none, none, none⟩
        ⟨true, some "konut", some (-5), some 60, some "TRY", none⟩).error =
      some "Amount cannot be negative" := by
  have hcore : executeCore [] ⟨"konut -5 TL", none, none, none, none⟩
      ⟨true, some "konut", some (-5), some 60, some "TRY", none⟩ =
      .error "Amount cannot be negative" := by
    norm_num +decide [executeCore, LoanType.fromString, LoanType.isValidType,
      Money.fromNumber, Money.create, currencyOrTRY]
  have h := (c5_search_contract [] ⟨"konut -5 TL", none, none, none, none⟩
    ⟨true, some "konut", some (-5), some 60, some "TRY", none⟩).2.2.2.1
    "Amount cannot be negative" rfl hcore
  exact ⟨⟨rfl, hcore⟩, h.1, h.2⟩

/-- C6: a successfully parsed query whose catalog lookup finds no eligible
loans yields a success response with totalFound = 0 and an empty loan list,
distinguishable from a parse failure, which yields success = false. -/
theorem c6_zero_matches (catalog : List Loan) (request : LoanSearchRequest)
    (pr : QueryParseResult) (lt : LoanType) (amount : Money) (term : Term)
    (hs : pr.success = true)
    (hlt : LoanType.fromString (pr.type.getD "undefined") = .ok lt)
    (hamt : Money.fromNumber (pr.amount.getD 0) (currencyOrTRY pr.currency) =
      .ok amount)
    (hterm : Term.fromMonths (pr.termMonths.getD 0) = .ok term)
    (hfind : findEligible catalog lt amount term = .ok []) :
    executeSearch catalog request pr =
      { query := request.query,
        parsedParams := ⟨pr.type.getD "undefined", pr.amount.getD 0,
          pr.termMonths.getD 0, currencyOrTRY pr.currency⟩,
        loans := [], totalFound := 0, success := true, error := none }
    ∧ (∀ pr2 : QueryParseResult, pr2.success = false →
        (executeSearch catalog request pr2).success = false) := by
  have hcmp : compareLoans [] amount term = .ok [] := rfl
  have hcore : executeCore catalog request pr =
      .ok { query := request.query,
            parsedParams := ⟨pr.type.getD "undefined", pr.amount.getD 0,
              pr.termMonths.getD 0, currencyOrTRY pr.currency⟩,
            loans := [], totalFound := 0, success := true,
            error := none } := by
    unfold executeCore
    simp only [hlt, hamt, hterm, hfind, hcmp, List.map_nil, List.length_nil]
  constructor
  · unfold executeSearch
    rw [if_neg (by simp [hs]), hcore]
  · intro pr2 h2
    unfold executeSearch
    rw [if_pos (by simp [h2])]

/-- C6 witness: a housing query over a catalog holding only a short-term
housing loan finds zero matches and still succeeds. -/
theorem c6_witness :
    ((⟨true, some "konut", some 500000, some 60, some "TRY", none⟩ :
        QueryParseResult).success = true
      ∧ LoanType.fromString "konut" = .ok ⟨"konut"⟩
      ∧ Money.fromNumber 500000 "TRY" = .ok ⟨500000, "TRY"⟩
      ∧ Term.fromMonths 60 = .ok ⟨60⟩
      ∧ findEligible [demoLoanE] ⟨"konut"⟩ ⟨500000, "TRY"⟩ ⟨60⟩ = .ok [])
    ∧ executeSearch [demoLoanE] ⟨"500 bin 60 ay konut", none, none, none,
        none⟩ ⟨true, some "konut", some 500000, some 60, some "TRY", none⟩ =
      { query := "500 bin 60 ay konut",
        parsedParams := ⟨"konut", 500000, 60, "TRY"⟩,
        loans := [], totalFound := 0, success := true, error := none } := by
  have hlt : LoanType.fromString "konut" = .ok ⟨"konut"⟩ := by decide
  have hamt : Money.fromNumber 500000 "TRY" = .ok ⟨500000, "TRY"⟩ := by
    norm_num +decide [Money.fromNumber, Money.create, round2, jsRound]
  have hterm : Term.fromMonths 60 = .ok ⟨60⟩ := by
    norm_num +decide [Term.fromMonths, Term.create, jsRound]
  have hfind : findEligible [demoLoanE] ⟨"konut"⟩ ⟨500000, "TRY"⟩ ⟨60⟩ =
      .ok [] := by
    norm_num +decide [findEligible, filterE, LoanType.equals, Loan.isEligible,
      Loan.isEligibleForAmount, Loan.isEligibleForTerm, Term.isGreaterThan,
      Money.isLessThan, Money.isGreaterThan, Money.ensureSameCurrency,
      demoLoanE, demoBank]
  exact ⟨⟨rfl, hlt, hamt, hterm, hfind⟩,
    (c6_zero_matches [demoLoanE] ⟨"500 bin 60 ay konut", none, none, none,
      none⟩ ⟨true, some "konut", some 500000, some 60, some "TRY", none⟩
      ⟨"konut"⟩ ⟨500000, "TRY"⟩ ⟨60⟩ rfl hlt hamt hterm hfind).1⟩

end LoanSearch
